import Mathlib

/-!
Verification of the InstantDashboard pipeline core
(`instant_dashboard/agent.py`, `instant_dashboard/sub_agents/query_planner.py`,
`instant_dashboard/sub_agents/bigquery_runner.py`,
`instant_dashboard/sub_agents/chart_generator.py`).

The stage boundaries pass JSON-shaped Python values, so the development
starts from a shallow embedding of JSON values together with the small
amount of Python semantics the pipeline relies on (dict lookup,
truthiness, `float(x)` parsing, `str.title()`, substring membership,
`json.loads` / `json.dumps`).

JSON numbers are embedded as exact decimals `m * 10 ^ e`; the two float
comparisons in the source (`numeric/total > 0.8` in the chart generator
and `score/5*100 < 80` in the plan validator) are embedded as the exact
rational comparisons, which agree with the IEEE evaluation at every
realistically sized input (both sides are exactly representable for the
small counts involved).
-/

/-- A JSON value as produced by Python's `json.loads`: `num m e`
represents the decimal `m * 10 ^ e` (integers have `e = 0`). -/
inductive Json where
  | null
  | bool (b : Bool)
  | num (m : Int) (e : Int)
  | str (s : String)
  | arr (elems : List Json)
  | obj (fields : List (String × Json))
deriving Repr

mutual

/-- Decidable equality on `Json` (the derive handler does not support the
nested occurrence of `List`). -/
def Json.decEq : (a b : Json) → Decidable (a = b)
  | .null, .null => .isTrue rfl
  | .null, .bool _ => .isFalse (fun h => nomatch h)
  | .null, .num _ _ => .isFalse (fun h => nomatch h)
  | .null, .str _ => .isFalse (fun h => nomatch h)
  | .null, .arr _ => .isFalse (fun h => nomatch h)
  | .null, .obj _ => .isFalse (fun h => nomatch h)
  | .bool _, .null => .isFalse (fun h => nomatch h)
  | .bool a, .bool b =>
    if h : a = b then .isTrue (by rw [h])
    else .isFalse (by intro hh; injection hh; contradiction)
  | .bool _, .num _ _ => .isFalse (fun h => nomatch h)
  | .bool _, .str _ => .isFalse (fun h => nomatch h)
  | .bool _, .arr _ => .isFalse (fun h => nomatch h)
  | .bool _, .obj _ => .isFalse (fun h => nomatch h)
  | .num _ _, .null => .isFalse (fun h => nomatch h)
  | .num _ _, .bool _ => .isFalse (fun h => nomatch h)
  | .num m e, .num m' e' =>
    if h1 : m = m' then
      if h2 : e = e' then .isTrue (by rw [h1, h2])
      else .isFalse (by intro hh; injection hh; contradiction)
    else .isFalse (by intro hh; injection hh; contradiction)
  | .num _ _, .str _ => .isFalse (fun h => nomatch h)
  | .num _ _, .arr _ => .isFalse (fun h => nomatch h)
  | .num _ _, .obj _ => .isFalse (fun h => nomatch h)
  | .str _, .null => .isFalse (fun h => nomatch h)
  | .str _, .bool _ => .isFalse (fun h => nomatch h)
  | .str _, .num _ _ => .isFalse (fun h => nomatch h)
  | .str a, .str b =>
    if h : a = b then .isTrue (by rw [h])
    else .isFalse (by intro hh; injection hh; contradiction)
  | .str _, .arr _ => .isFalse (fun h => nomatch h)
  | .str _, .obj _ => .isFalse (fun h => nomatch h)
  | .arr _, .null => .isFalse (fun h => nomatch h)
  | .arr _, .bool _ => .isFalse (fun h => nomatch h)
  | .arr _, .num _ _ => .isFalse (fun h => nomatch h)
  | .arr _, .str _ => .isFalse (fun h => nomatch h)
  | .arr xs, .arr ys =>
    match Json.decEqList xs ys with
    | .isTrue h => .isTrue (by rw [h])
    | .isFalse h => .isFalse (by intro hh; injection hh; contradiction)
  | .arr _, .obj _ => .isFalse (fun h => nomatch h)
  | .obj _, .null => .isFalse (fun h => nomatch h)
  | .obj _, .bool _ => .isFalse (fun h => nomatch h)
  | .obj _, .num _ _ => .isFalse (fun h => nomatch h)
  | .obj _, .str _ => .isFalse (fun h => nomatch h)
  | .obj _, .arr _ => .isFalse (fun h => nomatch h)
  | .obj xs, .obj ys =>
    match Json.decEqObj xs ys with
    | .isTrue h => .isTrue (by rw [h])
    | .isFalse h => .isFalse (by intro hh; injection hh; contradiction)

/-- Decidable equality of lists of `Json` values. -/
def Json.decEqList : (xs ys : List Json) → Decidable (xs = ys)
  | [], [] => .isTrue rfl
  | [], _ :: _ => .isFalse (fun h => nomatch h)
  | _ :: _, [] => .isFalse (fun h => nomatch h)
  | x :: xs, y :: ys =>
    match Json.decEq x y with
    | .isTrue h1 =>
      match Json.decEqList xs ys with
      | .isTrue h2 => .isTrue (by rw [h1, h2])
      | .isFalse h2 => .isFalse (by intro hh; injection hh; contradiction)
    | .isFalse h1 => .isFalse (by intro hh; injection hh; contradiction)

/-- Decidable equality of key/value field lists. -/
def Json.decEqObj : (xs ys : List (String × Json)) → Decidable (xs = ys)
  | [], [] => .isTrue rfl
  | [], _ :: _ => .isFalse (fun h => nomatch h)
  | _ :: _, [] => .isFalse (fun h => nomatch h)
  | (k, v) :: xs, (k', v') :: ys =>
    if hk : k = k' then
      match Json.decEq v v' with
      | .isTrue hv =>
        match Json.decEqObj xs ys with
        | .isTrue ht => .isTrue (by rw [hk, hv, ht])
        | .isFalse ht => .isFalse (by intro hh; injection hh; contradiction)
      | .isFalse hv =>
        .isFalse (by
          intro hh; injection hh with h1 h2
          injection h1 with hk1 hv1; exact hv hv1)
    else
      .isFalse (by
        intro hh; injection hh with h1 h2
        injection h1 with hk1 hv1; exact hk hk1)

end

instance : DecidableEq Json := Json.decEq

namespace Json

/-- First-match association lookup; on values decoded from JSON text the
keys of an object are unique, so this is Python dict lookup. -/
def lookup (k : String) : List (String × Json) → Option Json
  | [] => none
  | (k', v) :: rest => if k' = k then some v else lookup k rest

/-- `j[k]` read on an object; `none` on any non-object (Python raises). -/
def get (j : Json) (k : String) : Option Json :=
  match j with
  | .obj kvs => lookup k kvs
  | _ => none

/-- Python truthiness of a JSON-decoded value. -/
def truthy : Json → Bool
  | .null => false
  | .bool b => b
  | .num m _ => m ≠ 0
  | .str s => s ≠ ""
  | .arr xs => !xs.isEmpty
  | .obj kvs => !kvs.isEmpty

end Json

/-- Whether `needle` occurs at the start of `hay`. -/
def listStartsWith : List Char → List Char → Bool
  | _, [] => true
  | [], _ :: _ => false
  | a :: as, b :: bs => a = b && listStartsWith as bs

/-- Whether `needle` occurs contiguously anywhere in `hay`
(Python `needle in hay` on strings). -/
def listHasSeq (hay needle : List Char) : Bool :=
  match hay with
  | [] => listStartsWith [] needle
  | _ :: t => listStartsWith hay needle || listHasSeq t needle

/-- Python `needle in hay` for strings. -/
def strContains (hay needle : String) : Bool :=
  listHasSeq hay.toList needle.toList

/-- The ASCII whitespace Python strips (`str.strip()` / `float()`). -/
def pyIsSpace (c : Char) : Bool :=
  c = ' ' ∨ c = '\t' ∨ c = '\n' ∨ c = '\r' ∨ c = '\x0b' ∨ c = '\x0c'

/-- Python `str.strip()` with no argument. -/
def pyStrip (s : String) : String :=
  ⟨((s.toList.dropWhile pyIsSpace).reverse.dropWhile pyIsSpace).reverse⟩

/-- Left-to-right non-overlapping replacement, fuelled by the length of
the haystack (the fuel is sufficient: each step consumes a character). -/
def replaceSeq : Nat → List Char → List Char → List Char → List Char
  | 0, hay, _, _ => hay
  | _ + 1, [], _, _ => []
  | fuel + 1, c :: rest, needle, repl =>
    if listStartsWith (c :: rest) needle then
      repl ++ replaceSeq fuel ((c :: rest).drop needle.length) needle repl
    else c :: replaceSeq fuel rest needle repl

/-- Python `hay.replace(needle, repl)` for a non-empty needle (every use
in the pipeline has one). -/
def pyReplace (hay needle repl : String) : String :=
  if needle.toList.isEmpty then hay
  else ⟨replaceSeq hay.toList.length hay.toList needle.toList repl.toList⟩

/-- ASCII lower-casing, Python `str.lower()` on the identifiers involved. -/
def lowerStr (s : String) : String := ⟨s.toList.map Char.toLower⟩

/-- ASCII upper-casing. -/
def upperStr (s : String) : String := ⟨s.toList.map Char.toUpper⟩

/-- Helper for `pyTitle`: the flag records whether the previous character
was a letter. -/
def pyTitleAux : Bool → List Char → List Char
  | _, [] => []
  | prevAlpha, c :: rest =>
    if c.isAlpha then
      (if prevAlpha then c.toLower else c.toUpper) :: pyTitleAux true rest
    else c :: pyTitleAux false rest

/-- Python `str.title()` (ASCII): first letter of every letter-run
upper-cased, the rest lower-cased. -/
def pyTitle (s : String) : String := ⟨pyTitleAux false s.toList⟩

/-- Consume `(digit | '_' digit)*`, stopping before anything else
(a dangling underscore is left in place so the caller rejects it,
matching Python's rejection of trailing/double underscores). -/
def eatMoreDigits : List Char → List Char
  | [] => []
  | c :: rest =>
    if c.isDigit then eatMoreDigits rest
    else if c = '_' then
      match rest with
      | d :: rest' => if d.isDigit then eatMoreDigits rest' else c :: rest
      | [] => [c]
    else c :: rest

/-- Consume a digit run (with Python's interior underscores); fails when
no leading digit is present. -/
def eatDigits : List Char → Option (List Char)
  | [] => none
  | c :: rest => if c.isDigit then some (eatMoreDigits rest) else none

/-- Mantissa of a Python float literal: `digits [. digits?] | . digits`. -/
def floatMantissa (cs : List Char) : Option (List Char) :=
  match eatDigits cs with
  | some rest =>
    match rest with
    | '.' :: rest2 =>
      match eatDigits rest2 with
      | some rest3 => some rest3
      | none => some rest2
    | _ => some rest
  | none =>
    match cs with
    | '.' :: rest2 => eatDigits rest2
    | _ => none

/-- Optional exponent part `([eE] [+-]? digits)?` of a float literal. -/
def floatExpPart (cs : List Char) : Option (List Char) :=
  match cs with
  | c :: rest =>
    if c = 'e' ∨ c = 'E' then
      match rest with
      | s :: rest2 =>
        if s = '+' ∨ s = '-' then eatDigits rest2 else eatDigits rest
      | [] => none
    else some (c :: rest)
  | [] => some []

/-- Drop one optional leading sign. -/
def dropSign : List Char → List Char
  | c :: rest => if c = '+' ∨ c = '-' then rest else c :: rest
  | cs => cs

/-- Whether Python `float(s)` succeeds on the string `s`: optional
whitespace and sign, then a float literal or one of `inf`, `infinity`,
`nan` (case-insensitive). -/
def pyFloatLit (s : String) : Bool :=
  let cs := dropSign (lowerStr (pyStrip s)).toList
  if cs = "inf".toList ∨ cs = "infinity".toList ∨ cs = "nan".toList then true
  else
    match floatMantissa cs with
    | some rest =>
      match floatExpPart rest with
      | some [] => true
      | _ => false
    | none => false

/-- Whether Python `float(x)` succeeds on a JSON-decoded value: numbers
and booleans always convert, strings convert when they read as a float
literal, everything else raises. -/
def pyFloatOk : Json → Bool
  | .bool _ => true
  | .num _ _ => true
  | .str s => pyFloatLit s
  | _ => false

/-- Python `len(x)` for JSON-decoded values (`none` when `len` raises). -/
def pyLen? : Json → Option Nat
  | .str s => some s.length
  | .arr xs => some xs.length
  | .obj kvs => some kvs.length
  | _ => none

/-- Whether `x[:100]` slicing succeeds on a JSON-decoded value. -/
def pySliceable : Json → Bool
  | .str _ => true
  | .arr _ => true
  | _ => false

/-- Skip the whitespace `json.loads` skips. -/
def skipWs : List Char → List Char
  | [] => []
  | c :: rest =>
    if c = ' ' ∨ c = '\t' ∨ c = '\n' ∨ c = '\r' then skipWs rest else c :: rest

/-- Value of one hexadecimal digit. -/
def hexVal? (c : Char) : Option Nat :=
  if c.isDigit then some (c.toNat - '0'.toNat)
  else if 'a' ≤ c ∧ c ≤ 'f' then some (c.toNat - 'a'.toNat + 10)
  else if 'A' ≤ c ∧ c ≤ 'F' then some (c.toNat - 'A'.toNat + 10)
  else none

/-- Body of a JSON string after the opening quote: handles the escape
sequences `json.loads` accepts and rejects raw control characters.
Basic-plane `\u` escapes are supported (surrogate escapes are not needed
by this development and are rejected). -/
def parseStrBody : Nat → List Char → List Char → Option (String × List Char)
  | 0, _, _ => none
  | _ + 1, [], _ => none
  | fuel + 1, c :: rest, acc =>
    if c = '"' then some (⟨acc.reverse⟩, rest)
    else if c = '\\' then
      match rest with
      | [] => none
      | e :: rest2 =>
        if e = '"' then parseStrBody fuel rest2 ('"' :: acc)
        else if e = '\\' then parseStrBody fuel rest2 ('\\' :: acc)
        else if e = '/' then parseStrBody fuel rest2 ('/' :: acc)
        else if e = 'b' then parseStrBody fuel rest2 ('\x08' :: acc)
        else if e = 'f' then parseStrBody fuel rest2 ('\x0c' :: acc)
        else if e = 'n' then parseStrBody fuel rest2 ('\n' :: acc)
        else if e = 'r' then parseStrBody fuel rest2 ('\r' :: acc)
        else if e = 't' then parseStrBody fuel rest2 ('\t' :: acc)
        else if e = 'u' then
          match rest2 with
          | h1 :: h2 :: h3 :: h4 :: rest3 =>
            match hexVal? h1, hexVal? h2, hexVal? h3, hexVal? h4 with
            | some a, some b, some c2, some d =>
              let n := ((a * 16 + b) * 16 + c2) * 16 + d
              if _hv : n.isValidChar then parseStrBody fuel rest3 (Char.ofNat n :: acc)
              else none
            | _, _, _, _ => none
          | _ => none
        else none
    else if c.toNat < 0x20 then none
    else parseStrBody fuel rest (c :: acc)

/-- Take a maximal run of decimal digits. -/
def takeDigits : List Char → List Char × List Char
  | [] => ([], [])
  | c :: rest =>
    if c.isDigit then
      let (ds, r) := takeDigits rest
      (c :: ds, r)
    else ([], c :: rest)

/-- Numeric value of a digit run. -/
def digitsVal (ds : List Char) : Nat :=
  ds.foldl (fun a c => a * 10 + (c.toNat - '0'.toNat)) 0

/-- Optional exponent part of a JSON number; assembles `m * 10 ^ e`. -/
def parseExpPart (neg : Bool) (mantDigits : List Char) (fracLen : Nat)
    (cs : List Char) : Option (Json × List Char) :=
  let mAbs : Int := Int.ofNat (digitsVal mantDigits)
  let m : Int := if neg then -mAbs else mAbs
  match cs with
  | [] => some (Json.num m (-(Int.ofNat fracLen)), [])
  | c :: r =>
    if c = 'e' ∨ c = 'E' then
      let (eneg, r2) :=
        match r with
        | '+' :: rr => (false, rr)
        | '-' :: rr => (true, rr)
        | _ => (false, r)
      match takeDigits r2 with
      | ([], _) => none
      | (eds, rest3) =>
        let ev : Int := Int.ofNat (digitsVal eds)
        some (Json.num m ((if eneg then -ev else ev) - Int.ofNat fracLen), rest3)
    else some (Json.num m (-(Int.ofNat fracLen)), c :: r)

/-- A JSON number (RFC 8259 grammar, as `json.loads` accepts it). -/
def parseNum (cs : List Char) : Option (Json × List Char) :=
  let (neg, cs1) :=
    match cs with
    | '-' :: r => (true, r)
    | _ => (false, cs)
  match takeDigits cs1 with
  | ([], _) => none
  | (ds, rest) =>
    if 1 < ds.length ∧ ds.headD '0' = '0' then none
    else
      match rest with
      | '.' :: r =>
        match takeDigits r with
        | ([], _) => none
        | (fs, rest2) => parseExpPart neg (ds ++ fs) fs.length rest2
      | _ => parseExpPart neg ds 0 rest

/-- Replace-or-append of an object field: Python dicts keep the original
position of a re-inserted key and its latest value. -/
def upsert (kvs : List (String × Json)) (k : String) (v : Json) :
    List (String × Json) :=
  match kvs with
  | [] => [(k, v)]
  | (k', v') :: rest =>
    if k' = k then (k', v) :: rest else (k', v') :: upsert rest k v

mutual

/-- One JSON value with surrounding-whitespace skipping; mirrors
`json.loads` up to the fuel bound (always sufficient at the call site). -/
def parseVal : Nat → List Char → Option (Json × List Char)
  | 0, _ => none
  | fuel + 1, cs =>
    match skipWs cs with
    | [] => none
    | c :: rest =>
      if c = 'n' then
        if listStartsWith (c :: rest) "null".toList then
          some (.null, (c :: rest).drop 4)
        else none
      else if c = 't' then
        if listStartsWith (c :: rest) "true".toList then
          some (.bool true, (c :: rest).drop 4)
        else none
      else if c = 'f' then
        if listStartsWith (c :: rest) "false".toList then
          some (.bool false, (c :: rest).drop 5)
        else none
      else if c = '"' then
        match parseStrBody (rest.length + 1) rest [] with
        | some (s, r) => some (.str s, r)
        | none => none
      else if c = '[' then
        match skipWs rest with
        | ']' :: r2 => some (.arr [], r2)
        | cs2 => parseArrRest fuel cs2 []
      else if c = '\x7b' then
        match skipWs rest with
        | '\x7d' :: r2 => some (.obj [], r2)
        | cs2 => parseObjRest fuel cs2 []
      else parseNum (c :: rest)

/-- Elements of a non-empty array, positioned at the start of a value. -/
def parseArrRest : Nat → List Char → List Json → Option (Json × List Char)
  | 0, _, _ => none
  | fuel + 1, cs, acc =>
    match parseVal fuel cs with
    | none => none
    | some (v, r) =>
      match skipWs r with
      | ',' :: r2 => parseArrRest fuel r2 (acc ++ [v])
      | ']' :: r2 => some (.arr (acc ++ [v]), r2)
      | _ => none

/-- Members of a non-empty object, positioned at the start of a key. -/
def parseObjRest : Nat → List Char → List (String × Json) →
    Option (Json × List Char)
  | 0, _, _ => none
  | fuel + 1, cs, acc =>
    match skipWs cs with
    | '"' :: r =>
      match parseStrBody (r.length + 1) r [] with
      | none => none
      | some (k, r2) =>
        match skipWs r2 with
        | ':' :: r3 =>
          match parseVal fuel r3 with
          | none => none
          | some (v, r4) =>
            match skipWs r4 with
            | ',' :: r5 => parseObjRest fuel r5 (upsert acc k v)
            | '\x7d' :: r5 => some (.obj (upsert acc k v), r5)
            | _ => none
        | _ => none
    | _ => none

end

/-- Python `json.loads` with strict whole-input consumption: `none` when
the text is not a single well-formed JSON document. -/
def Json.parse (s : String) : Option Json :=
  let cs := s.toList
  match parseVal (2 * cs.length + 4) cs with
  | some (j, rest) => if skipWs rest = [] then some j else none
  | none => none

/-- One lower-case hexadecimal digit. -/
def hexDigit (n : Nat) : Char :=
  if n < 10 then Char.ofNat ('0'.toNat + n) else Char.ofNat ('a'.toNat + n - 10)

/-- A `\uXXXX` escape for a basic-plane code point. -/
def uEscape (n : Nat) : String :=
  "\\u" ++ ⟨[hexDigit (n / 4096 % 16), hexDigit (n / 256 % 16),
             hexDigit (n / 16 % 16), hexDigit (n % 16)]⟩

/-- `json.dumps` escaping of one character (`ensure_ascii` default). -/
def escapeChar (c : Char) : String :=
  if c = '"' then "\\\""
  else if c = '\\' then "\\\\"
  else if c = '\n' then "\\n"
  else if c = '\t' then "\\t"
  else if c = '\r' then "\\r"
  else if c = '\x08' then "\\b"
  else if c = '\x0c' then "\\f"
  else if c.toNat < 0x20 then uEscape c.toNat
  else if c.toNat < 0x80 then String.singleton c
  else if c.toNat < 0x10000 then uEscape c.toNat
  else
    uEscape (0xd800 + (c.toNat - 0x10000) / 1024) ++
      uEscape (0xdc00 + (c.toNat - 0x10000) % 1024)

/-- `json.dumps` escaping of a string body. -/
def escapeStr (s : String) : String :=
  s.toList.foldl (fun a c => a ++ escapeChar c) ""

/-- Decimal rendering of `m * 10 ^ e` (used only when serializing plan
objects; every value serialized by the pipeline is integer-valued). -/
def numRepr (m e : Int) : String :=
  if 0 ≤ e then toString m ++ ⟨List.replicate e.toNat '0'⟩
  else
    let k := (-e).toNat
    let ds := (toString m.natAbs).toList
    let ds := if ds.length ≤ k then List.replicate (k + 1 - ds.length) '0' ++ ds else ds
    (if m < 0 then "-" else "") ++ ⟨ds.take (ds.length - k)⟩ ++ "." ++ ⟨ds.drop (ds.length - k)⟩

mutual

/-- Python `json.dumps` with its default separators and `ensure_ascii`. -/
def Json.dumps : Json → String
  | .null => "null"
  | .bool true => "true"
  | .bool false => "false"
  | .num m e => numRepr m e
  | .str s => "\"" ++ escapeStr s ++ "\""
  | .arr xs => "[" ++ Json.dumpsList xs ++ "]"
  | .obj kvs => "\x7b" ++ Json.dumpsObj kvs ++ "\x7d"

/-- Comma-joined array elements. -/
def Json.dumpsList : List Json → String
  | [] => ""
  | [x] => Json.dumps x
  | x :: y :: rest => Json.dumps x ++ ", " ++ Json.dumpsList (y :: rest)

/-- Comma-joined object members. -/
def Json.dumpsObj : List (String × Json) → String
  | [] => ""
  | [(k, v)] => "\"" ++ escapeStr k ++ "\": " ++ Json.dumps v
  | (k, v) :: p :: rest =>
    "\"" ++ escapeStr k ++ "\": " ++ Json.dumps v ++ ", " ++ Json.dumpsObj (p :: rest)

end

/-!
Chart Recommendation stage: shallow embedding of
`generate_chart_specifications` from
`instant_dashboard/sub_agents/chart_generator.py`. The function is pure
given its two inputs (`data`, `user_query`); logging and the
callback-context plumbing have no effect on the returned JSON string, so
the embedding returns the decoded result object directly
(`json.dumps`/`json.loads` round-trip at the boundary).
-/

/-- The guard result for empty input data (chart_generator.py lines 44-49). -/
def noDataObj : Json :=
  .obj [("success", .bool false),
        ("error", .str "No data provided for visualization"),
        ("recommendations", .arr [])]

/-- The result when the first row is not a mapping (lines 52-58). -/
def badFormatObj : Json :=
  .obj [("success", .bool false),
        ("error", .str "Data format not supported for visualization"),
        ("recommendations", .arr [])]

/-- The catch-all exception envelope (lines 194-200); the Python message
carries the exception text after the fixed prefix kept here. -/
def chartErrorObj : Json :=
  .obj [("success", .bool false),
        ("error", .str "Chart generation failed"),
        ("recommendations", .arr [])]

/-- Whether the membership test and subscript `key in row and row[key]`
run without raising on this row. Rows that are mappings always pass; a
list or string row passes only when the membership test is false (the
subscript would raise `TypeError`); any other row raises on `in`. -/
def rowTestOk (row : Json) (k : String) : Bool :=
  match row with
  | .obj _ => true
  | .arr xs => !(xs.any (· == Json.str k))
  | .str s => !(strContains s k)
  | _ => false

/-- The observed value of column `k` in a row, with Python `None`
(absent key or null value) collapsed to `none`; only meaningful on rows
where `rowTestOk` holds. -/
def cellVal (row : Json) (k : String) : Option Json :=
  match row with
  | .obj kvs =>
    match Json.lookup k kvs with
    | some v => if v = Json.null then none else some v
    | none => none
  | _ => none

/-- `total_values` for column `k`: rows with a non-null value. -/
def colTotal (data : List Json) (k : String) : Nat :=
  (data.filterMap (fun r => cellVal r k)).length

/-- `numeric_values` for column `k`: non-null values accepted by `float`. -/
def colNumeric (data : List Json) (k : String) : Nat :=
  (data.filterMap (fun r => cellVal r k)).countP pyFloatOk

/-- The classification test `total_values > 0 and numeric_values /
total_values > 0.8` (line 82), embedded as the exact comparison
`5 * numeric > 4 * total`, which agrees with the IEEE evaluation for
every realistically sized column. -/
def isNumericCol (data : List Json) (k : String) : Bool :=
  decide (0 < colTotal data k ∧ 4 * colTotal data k < 5 * colNumeric data k)

/-- Whether a column name triggers the time-series rule (line 149). -/
def isTimeKey (k : String) : Bool :=
  strContains (lowerStr k) "date" || strContains (lowerStr k) "time" ||
    strContains (lowerStr k) "month"

/-- The single-column "list" recommendation (lines 93-103). -/
def listRecObj (k0 : String) (rowCount : Nat) : Json :=
  .obj [("type", .str "list"), ("priority", .num 1 0),
        ("reason", .str "Single column data best displayed as organized list"),
        ("config", .obj [("display_type", .str "grid"),
                         ("title", .str (pyTitle k0 ++ " Results")),
                         ("count", .num rowCount 0)])]

/-- The bar-chart recommendation (lines 111-121). -/
def barRecObj (catCol numCol : String) : Json :=
  .obj [("type", .str "bar"), ("priority", .num 1 0),
        ("reason", .str "Perfect for comparing values across categories"),
        ("config", .obj [("x_axis", .str catCol), ("y_axis", .str numCol),
                         ("title", .str (pyTitle numCol ++ " by " ++ pyTitle catCol)),
                         ("color", .str "#3b82f6")])]

/-- The pie-chart recommendation (lines 122-132). -/
def pieRecObj (catCol numCol : String) : Json :=
  .obj [("type", .str "pie"), ("priority", .num 2 0),
        ("reason", .str "Shows proportional relationships and market share"),
        ("config", .obj [("label_field", .str catCol), ("value_field", .str numCol),
                         ("title", .str (pyTitle numCol ++ " Distribution")),
                         ("show_percentages", .bool true)])]

/-- The fallback table recommendation (lines 137-146). -/
def tableRecObj (keys : List String) : Json :=
  .obj [("type", .str "table"), ("priority", .num 1 0),
        ("reason", .str "Complex data best displayed in tabular format"),
        ("config", .obj [("columns", .arr (keys.map Json.str)),
                         ("sortable", .bool true),
                         ("title", .str "Data Results")])]

/-- The time-series line recommendation (lines 151-161). -/
def lineRecObj (xAxis yAxis : String) : Json :=
  .obj [("type", .str "line"), ("priority", .num 1 0),
        ("reason", .str "Time-based data perfect for trend analysis"),
        ("config", .obj [("x_axis", .str xAxis), ("y_axis", .str yAxis),
                         ("title", .str "Trend Analysis Over Time")])]

/-- `numeric_columns` in key order (lines 68-87). -/
def chartNumericCols (data : List Json) (keys : List String) : List String :=
  keys.filter (isNumericCol data)

/-- `categorical_columns` in key order (lines 68-87). -/
def chartCategoricalCols (data : List Json) (keys : List String) : List String :=
  keys.filter fun k => !(isNumericCol data k)

/-- The shape-based recommendations (lines 89-146): one column gives the
list view, two columns with exactly one categorical and one numeric give
bar then pie, anything else the table view. -/
def chartShapeRecs (data : List Json) (keys numericColumns categoricalColumns :
    List String) : List Json :=
  if keys.length = 1 then [listRecObj (keys.headD "") data.length]
  else if keys.length = 2 ∧ categoricalColumns.length = 1 ∧
      numericColumns.length = 1 then
    [barRecObj (categoricalColumns.headD "") (numericColumns.headD ""),
     pieRecObj (categoricalColumns.headD "") (numericColumns.headD "")]
  else [tableRecObj keys]

/-- The appended time-series recommendation (lines 148-161): x-axis the
first time-keyword column, y-axis the first numeric column or else the
last column. -/
def chartTimeRecs (keys numericColumns : List String) : List Json :=
  if keys.any isTimeKey then
    [lineRecObj ((keys.find? isTimeKey).getD (keys.headD ""))
      (numericColumns.headD (keys.getLastD ""))]
  else []

/-- The advisory query-intent strings (lines 163-174). -/
def chartInsights (userQuery : String) : List Json :=
  let q := lowerStr userQuery
  (if strContains q "top" || strContains q "best" || strContains q "highest" then
    [Json.str "Data shows ranking/comparison - bar charts recommended"] else []) ++
  (if strContains q "trend" || strContains q "over time" then
    [Json.str "Time-series analysis detected - line charts recommended"] else []) ++
  (if strContains q "share" || strContains q "percentage" ||
      strContains q "proportion" then
    [Json.str "Proportional analysis requested - pie charts recommended"] else [])

/-- The successful analysis body (lines 60-192), for a first row with
fields `fr`; only called once every `(key, row)` membership test is
known not to raise. -/
def chartSuccessBody (data : List Json) (userQuery : String)
    (fr : List (String × Json)) : Json :=
  let keys := fr.map Prod.fst
  let dataTypes := keys.map fun k =>
    (k, Json.str (if isNumericCol data k then "numeric" else "categorical"))
  let numericColumns := chartNumericCols data keys
  let categoricalColumns := chartCategoricalCols data keys
  let recs := chartShapeRecs data keys numericColumns categoricalColumns ++
    chartTimeRecs keys numericColumns
  .obj [("success", .bool true),
        ("data_analysis", .obj
          [("row_count", .num data.length 0),
           ("column_count", .num keys.length 0),
           ("columns", .arr (keys.map Json.str)),
           ("data_types", .obj dataTypes),
           ("numeric_columns", .arr (numericColumns.map Json.str)),
           ("categorical_columns", .arr (categoricalColumns.map Json.str))]),
        ("chart_recommendations", .arr recs),
        ("query_insights", .arr (chartInsights userQuery)),
        ("suggested_charts", .num recs.length 0)]

/-- `generate_chart_specifications(data, user_query)`: the decoded result
object. A membership test that would raise mid-loop sends Python to the
catch-all handler, so the embedding checks all `(key, row)` pairs first;
the output is identical. -/
def generate_chart_specifications (data : List Json) (userQuery : String) : Json :=
  match data with
  | [] => noDataObj
  | first :: _ =>
    match first with
    | .obj fr =>
      if (fr.map Prod.fst).all (fun k => data.all (fun r => rowTestOk r k)) then
        chartSuccessBody data userQuery fr
      else chartErrorObj
    | _ => badFormatObj

/-!
Execution stage: shallow embedding of `validate_query_execution`,
`_convert_plan_to_sql` and `execute_query_plan` from
`instant_dashboard/sub_agents/bigquery_runner.py`.

The two outbound calls are parameters: the SQL-generation LLM call is an
`Except String String` (exception message or response text) and the
warehouse call `run_bigquery_validation` is a function from the SQL text
to an `Except String ValidationResult`. Where the Python code embeds the
text of a caught exception in an error message, the embedding keeps the
fixed message prefix (the suffix is environment-specific).

`run_bigquery_validation` itself lives in `instant_dashboard/shared/bigquery.py`
(re-exported from the external `data_science` package), which is not part
of the source tree; it is modelled below from the spec where the claims
need its safety filter, and left as an oracle parameter elsewhere.
-/

/-- The dictionary returned by `run_bigquery_validation`: an optional
`query_result` row list and an optional `error_message`. -/
structure ValidationResult where
  query_result : Option (List Json)
  error_message : Option String
deriving Repr, DecidableEq

/-- Result shaping, error case (bigquery_runner.py lines 249-255). -/
def execErrorObj (msg : String) : Json :=
  .obj [("status", .str "error"), ("execution_successful", .bool false),
        ("data", .null), ("row_count", .num 0 0),
        ("error_message", .str msg)]

/-- Result shaping, success case (lines 238-244). -/
def execSuccessObj (rows : List Json) : Json :=
  .obj [("status", .str "success"), ("execution_successful", .bool true),
        ("data", .arr rows), ("row_count", .num rows.length 0),
        ("error_message", .null)]

/-- Result shaping of a warehouse outcome (lines 236-267): data present
wins, then a truthy error message, then the explicit
empty-but-not-failed case. -/
def shapeExecResult (vr : ValidationResult) : Json :=
  match vr.query_result with
  | some rows => execSuccessObj rows
  | none =>
    if vr.error_message.getD "" ≠ "" then execErrorObj (vr.error_message.getD "")
    else execSuccessObj []

/-- The six destructive SQL verbs of spec §4.2 step B. -/
def blockedVerbs : List String :=
  ["DELETE", "DROP", "UPDATE", "INSERT", "TRUNCATE", "ALTER"]

/-- Case-insensitive destructive-verb detection on an SQL string. -/
def containsBlockedVerb (sql : String) : Bool :=
  blockedVerbs.any fun v => strContains (upperStr sql) v

/-- The rejection message, naming the first detected blocked verb. -/
def blockedVerbMessage (sql : String) : String :=
  "Invalid SQL: contains disallowed operation " ++
    ((blockedVerbs.filter fun v => strContains (upperStr sql) v).headD "")

/-- Modelled from the spec: `run_bigquery_validation`
(`instant_dashboard/shared/bigquery.py`, re-exported from the external
`data_science` package; not present in the source tree). Per spec §4.2
step B it must reject SQL containing a destructive verb (DELETE, DROP,
UPDATE, INSERT, TRUNCATE, ALTER; case-insensitive) before dispatching to
the warehouse, surfacing the block as an `error_message`; otherwise the
warehouse (the `wh` oracle) decides the outcome. -/
def run_bigquery_validation (sql : String)
    (wh : String → Except String ValidationResult) :
    Except String ValidationResult :=
  if containsBlockedVerb sql then
    .ok { query_result := none, error_message := some (blockedVerbMessage sql) }
  else wh sql

/-- `validate_query_execution(sql_query, tool_context)` (lines 206-284):
wraps the validation call and shapes its result; any exception from the
call produces the catch-all error record. -/
def validate_query_execution (sql : String)
    (wh : String → Except String ValidationResult) : Json :=
  match run_bigquery_validation sql wh with
  | .ok vr => shapeExecResult vr
  | .error e => execErrorObj ("BigQueryRunner error: " ++ e)

/-- The parse-failure record of `execute_query_plan` (lines 73-79); the
Python message appends the decoder's detail to the prefix kept here. -/
def invalidJsonPlanObj : Json :=
  .obj [("status", .str "error"), ("execution_successful", .bool false),
        ("data", .null), ("row_count", .num 0 0),
        ("error_message", .str "Invalid JSON query plan")]

/-- The catch-all error record of `execute_query_plan` (lines 122-129). -/
def execPlanOuterErrorObj : Json :=
  .obj [("status", .str "error"), ("execution_successful", .bool false),
        ("data", .null), ("row_count", .num 0 0),
        ("error_message", .str "BigQueryRunner execute_query_plan error"),
        ("query_plan_used", .bool true)]

/-- Warehouse connection parameters (the `database_settings` entries the
pipeline core reads). -/
structure DbSettings where
  bq_project_id : String
  bq_dataset_id : String
  bq_ddl_schema : String
deriving Repr, DecidableEq

/-- Python `str(x)` of a JSON-decoded value as interpolated into the
fallback SQL f-string (containers approximated by their JSON form). -/
def pyStr : Json → String
  | .null => "None"
  | .bool true => "True"
  | .bool false => "False"
  | .num m e => numRepr m e
  | .str s => s
  | j => Json.dumps j

/-- `x[0]` on a JSON-decoded value: head of a list, first character of a
string, `TypeError`/`KeyError` otherwise. -/
def pySubscriptZero : Json → Except Unit Json
  | .arr (x :: _) => .ok x
  | .str s =>
    match s.toList with
    | c :: _ => .ok (.str (String.singleton c))
    | [] => .error ()
  | _ => .error ()

/-- Strip code fences from the SQL LLM response (line 191). -/
def stripSqlFences (t : String) : String :=
  pyStrip (pyReplace (pyReplace t "```sql" "") "```" "")

/-- `_convert_plan_to_sql(plan_data, tool_context)` (lines 134-203): the
LLM response stripped of fences on success; on an LLM exception, the
naive fallback `SELECT * FROM <first required table> LIMIT 10`, which
itself raises (propagating to the caller's handler) when the plan lists
no tables or the subscript fails. -/
def convert_plan_to_sql (planFields : List (String × Json))
    (sqlLlm : Except String String) (st : DbSettings) : Except Unit String :=
  match sqlLlm with
  | .ok t => .ok (stripSqlFences t)
  | .error _ =>
    let tables := (Json.lookup "required_tables" planFields).getD (.arr [])
    if tables.truthy then
      match pySubscriptZero tables with
      | .ok v =>
        .ok ("SELECT * FROM `" ++ st.bq_project_id ++ "." ++ st.bq_dataset_id ++
          "." ++ pyStr v ++ "` LIMIT 10")
      | .error _ => .error ()
    else .error ()

/-- The body of `execute_query_plan` after the JSON parse (lines 83-119),
in an exception monad feeding the function's catch-all handler. The
`.get` calls require a mapping; the progress prints slice
`question_analysis` and take `len(data_processing_steps)`, so those
fields must be sliceable/sized or the body raises. -/
def execPlanBody (plan : Json) (sqlLlm : Except String String)
    (wh : String → Except String ValidationResult) (st : DbSettings) :
    Except Unit Json := do
  let fields ← match plan with
    | .obj kvs => Except.ok kvs
    | _ => Except.error ()
  let qa := (Json.lookup "question_analysis" fields).getD (.str "")
  let rt := (Json.lookup "required_tables" fields).getD (.arr [])
  let dps := (Json.lookup "data_processing_steps" fields).getD (.arr [])
  if pySliceable qa then pure () else Except.error ()
  if (pyLen? dps).isSome then pure () else Except.error ()
  let sql ← convert_plan_to_sql fields sqlLlm st
  let execResult := validate_query_execution sql wh
  let execFields ← match execResult with
    | .obj kvs => Except.ok kvs
    | _ => Except.error ()
  pure (.obj (execFields ++
    [("query_plan_used", .bool true), ("original_question", qa),
     ("tables_accessed", rt), ("generated_sql", .str sql)]))

/-- `execute_query_plan(query_plan, tool_context)` (lines 45-131): parse
the plan string, run the body, catch everything. The function returns
`json.dumps` of the record and its consumers immediately re-parse it, so
the embedding hands over the decoded record. -/
def execute_query_plan (queryPlan : String) (sqlLlm : Except String String)
    (wh : String → Except String ValidationResult) (st : DbSettings) : Json :=
  match Json.parse queryPlan with
  | none => invalidJsonPlanObj
  | some plan =>
    match execPlanBody plan sqlLlm wh st with
    | .ok j => j
    | .error _ => execPlanOuterErrorObj

/-!
Planning stage: shallow embedding of `generate_query_plan` and
`validate_query_plan` from `instant_dashboard/sub_agents/query_planner.py`.
The plan LLM call is an `Except String String` parameter.
-/

/-- Strip markdown fences from the plan LLM response (line 132). -/
def stripFences (t : String) : String :=
  pyStrip (pyReplace (pyReplace t "```json" "") "```" "")

/-- The degraded failure object of the exception handler
(query_planner.py lines 147-154). -/
def planFailureObj (question msg : String) : Json :=
  .obj [("error", .str ("❌ Error generating query plan: " ++ msg)),
        ("question_analysis", .str question),
        ("status", .str "failed")]

/-- `generate_query_plan(question, tool_context)` (lines 43-154): on an
LLM response, the fence-stripped text is returned whether or not it
parses (the parse attempt only logs); on an LLM exception, the dumped
degraded failure object. -/
def generate_query_plan (question : String) (llm : Except String String) : String :=
  match llm with
  | .ok t => stripFences t
  | .error e => Json.dumps (planFailureObj question e)

/-- The five keys `validate_query_plan` checks (lines 183-189); note
`table_relationships` is not among them. -/
def requiredElements : List String :=
  ["question_analysis", "required_tables", "preparation_steps",
   "data_processing_steps", "output_requirements"]

/-- Python `k in j` on a JSON-decoded value (`TypeError` on the rest). -/
def pyContains (j : Json) (k : String) : Except Unit Bool :=
  match j with
  | .obj kvs => .ok (Json.lookup k kvs).isSome
  | .arr xs => .ok (xs.any (· == Json.str k))
  | .str s => .ok (strContains s k)
  | _ => .error ()

/-- Python `j[k]` with a string key (`TypeError` on non-mappings; the
callers only index after a successful membership test). -/
def pyIndex (j : Json) (k : String) : Except Unit Json :=
  match j with
  | .obj kvs =>
    match Json.lookup k kvs with
    | some v => .ok v
    | none => .error ()
  | _ => .error ()

/-- The JSON-parse-failure result of `validate_query_plan` (lines 222-228). -/
def validateJsonErrorObj : Json :=
  .obj [("is_valid", .bool false),
        ("error", .str "Query plan is not valid JSON format"),
        ("recommendations", .arr [.str "Regenerate query plan in proper JSON format"])]

/-- The catch-all result of `validate_query_plan` (lines 230-236); the
Python message carries the exception text after the prefix kept here. -/
def validateExceptionObj : Json :=
  .obj [("is_valid", .bool false),
        ("error", .str "Validation error"),
        ("recommendations", .arr [.str "Check query plan format and content"])]

/-- The element loop of `validate_query_plan` (lines 191-196): for each
required element in order, `element in plan_data and plan_data[element]`
bumps the score, otherwise the element joins `missing_elements`. -/
def planElementsScan (plan : Json) : List String → Except Unit (Nat × List String)
  | [] => .ok (0, [])
  | el :: rest => do
    let mem ← pyContains plan el
    let hit ← if mem then do
        let v ← pyIndex plan el
        pure v.truthy
      else pure false
    let (s, ms) ← planElementsScan plan rest
    if hit then pure (s + 1, ms) else pure (s, el :: ms)

/-- The main body of `validate_query_plan` on a parsed plan (lines
175-220), in an exception monad feeding the catch-all handler: scan the
required elements, then bolt on recommendations (`completeness_score <
80`, then `len(required_tables) > 3`). The percentage `score / 5 * 100`
evaluates exactly to `score * 20` in IEEE arithmetic for the five
possible scores. -/
def validatePlanBody (plan : Json) : Except Unit Json := do
  let (score, missing) ← planElementsScan plan requiredElements
  let recs1 : List Json :=
    if score * 20 < 80 then [.str "Query plan needs more detail in missing elements"]
    else []
  let rtMem ← pyContains plan "required_tables"
  let recs2 : List Json ←
    if rtMem then do
      let rt ← pyIndex plan "required_tables"
      match pyLen? rt with
      | some n =>
        pure (if 3 < n then
          [Json.str ("Complex query with " ++ toString n ++
            " tables - consider optimization")]
        else [])
      | none => Except.error ()
    else pure []
  pure (.obj [("is_valid", .bool (missing.isEmpty)),
              ("completeness_score", .num (score * 20) 0),
              ("missing_elements", .arr (missing.map Json.str)),
              ("recommendations", .arr (recs1 ++ recs2))])

/-- `validate_query_plan(query_plan, tool_context)` (lines 157-236). -/
def validate_query_plan (queryPlan : String) : Json :=
  match Json.parse queryPlan with
  | none => validateJsonErrorObj
  | some plan =>
    match validatePlanBody plan with
    | .ok j => j
    | .error _ => validateExceptionObj

/-!
Pipeline Coordinator: shallow embedding of `execute_full_pipeline` from
`instant_dashboard/agent.py` (lines 126-253). The outbound effects are
parameters: settings loading (`get_bq_database_settings`, the only
statement in the `try` body that can raise), the plan LLM call, the SQL
LLM call and the warehouse call. The `execution_time` and `timestamp`
envelope fields are wall-clock side outputs with no data dependencies
and are not modelled.
-/

/-- The chart placeholder used when the coordinator skips chart
generation for lack of data (agent.py lines 194-198). -/
def noChartDataObj : Json :=
  .obj [("success", .bool false),
        ("error", .str "No data available for chart generation"),
        ("recommendations", .arr [])]

/-- The chart placeholder of the pipeline-level exception handler
(line 244). -/
def pipelineFailedChartObj : Json :=
  .obj [("success", .bool false), ("error", .str "Pipeline failed")]

/-- The envelope `execute_full_pipeline` returns, minus the two
wall-clock fields. `query_plan_used` and `row_count` are absent from the
exception-handler envelope, hence optional. Each `*_status` field is the
`status` entry of the corresponding `pipeline_phases` record. -/
structure PipelineResult where
  success : Bool
  data : Json
  chart_specifications : Json
  query_planning_status : String
  query_execution_status : String
  chart_generation_status : String
  query_plan_used : Option Bool
  row_count : Option Nat
  error_message : Option String
deriving Repr, DecidableEq

/-- The exception-handler envelope (agent.py lines 235-253). -/
def pipelineErrorEnvelope (msg : String) : PipelineResult :=
  { success := false, data := .obj [],
    chart_specifications := pipelineFailedChartObj,
    query_planning_status := "unknown", query_execution_status := "unknown",
    chart_generation_status := "error", query_plan_used := none,
    row_count := none, error_message := some msg }

/-- `execute_full_pipeline(question)` (lines 126-253): plan, execute,
then chart only when the execution record has `status = "success"` and a
non-empty `data` list; assemble the envelope. In every reachable
execution record a `"success"` status comes with a list-valued `"data"`
field, which the extraction below mirrors. Only the settings call can
raise out of the `try` body (every stage call catches internally), so
the exception handler fires exactly on a settings failure. -/
def execute_full_pipeline (question : String)
    (settings : Except String DbSettings) (planLlm : Except String String)
    (sqlLlm : Except String String)
    (wh : String → Except String ValidationResult) : PipelineResult :=
  match settings with
  | .error e => pipelineErrorEnvelope e
  | .ok st =>
    let queryPlanResult := generate_query_plan question planLlm
    let executionData := execute_query_plan queryPlanResult sqlLlm wh st
    let queryData : List Json :=
      if Json.get executionData "status" = some (.str "success") then
        match Json.get executionData "data" with
        | some (.arr rows) => rows
        | _ => []
      else []
    let chartData :=
      if !queryData.isEmpty then generate_chart_specifications queryData question
      else noChartDataObj
    { success := true, data := executionData, chart_specifications := chartData,
      query_planning_status := "success", query_execution_status := "success",
      chart_generation_status :=
        if ((Json.get chartData "success").getD .null).truthy then "success"
        else "error",
      query_plan_used := some true, row_count := some queryData.length,
      error_message := none }

/-!
Shared helper definitions and lemmas for the claim theorems.
-/

/-- The classification recorded for column `k` in a chart result object:
`result.data_analysis.data_types[k]`. -/
def dataTypeOf (result : Json) (k : String) : Option Json :=
  ((Json.get result "data_analysis").bind fun da => Json.get da "data_types").bind
    fun dt => Json.get dt k

/-- Row extension relation for C10: the second row is the first with
extra fields bolted on whose keys avoid `keys`. -/
def extendsRow (keys : List String) (r r' : Json) : Prop :=
  ∃ kvs extra, r = Json.obj kvs ∧ r' = Json.obj (kvs ++ extra) ∧
    ∀ p ∈ extra, p.1 ∉ keys

/-- The six required QueryPlan keys of spec §6, in the spec's order. -/
def requiredSixKeys : List String :=
  ["question_analysis", "required_tables", "table_relationships",
   "preparation_steps", "data_processing_steps", "output_requirements"]

/-- The QueryPlan JSON of the C3 exhibits: well-formed, five keys present
and non-empty, `table_relationships` absent. -/
def c3planText : String :=
  "\x7b\"question_analysis\": \"qa\", \"required_tables\": [\"t\"], \"preparation_steps\": [\"s\"], \"data_processing_steps\": [\"d\"], \"output_requirements\": \"o\"\x7d"

/-- The plan text used to exhibit the zero-row run of C7. -/
def c7planText : String :=
  "\x7b\"question_analysis\": \"qa\", \"required_tables\": [\"t\"], \"table_relationships\": \"rel\", \"preparation_steps\": [\"s\"], \"data_processing_steps\": [\"d\"], \"output_requirements\": \"o\"\x7d"

/-- The coordinator run of C7: a fully valid plan and a warehouse that
returns zero rows and no error. -/
def c7run : PipelineResult :=
  execute_full_pipeline "q" (.ok ⟨"p", "d", "s"⟩) (.ok c7planText)
    (.ok "SELECT 1") (fun _ => .ok ⟨some [], none⟩)

theorem listStartsWith_append (b r : List Char) : listStartsWith (b ++ r) b = true := by
  induction b with
  | nil => cases r <;> rfl
  | cons c cs ih => simp [listStartsWith, ih]

theorem listStartsWith_self (b : List Char) : listStartsWith b b = true := by
  have h := listStartsWith_append b []
  rwa [List.append_nil] at h

theorem listHasSeq_append_left (a b : List Char) : listHasSeq (a ++ b) b = true := by
  induction a with
  | nil =>
    cases b with
    | nil => rfl
    | cons c cs => simp [listHasSeq, listStartsWith_self]
  | cons c cs ih =>
    simp only [List.cons_append, listHasSeq, List.append_eq, ih, Bool.or_true]

theorem strContains_append_right (a b : String) : strContains (a ++ b) b = true := by
  have h : (a ++ b).toList = a.toList ++ b.toList := by
    simp [String.toList, String.data_append]
  simp [strContains, h, listHasSeq_append_left]

theorem str_append_ne_empty_left (s t : String) (h : s ≠ "") : s ++ t ≠ "" := by
  intro he
  apply h
  have hd : (s ++ t).data = ([] : List Char) := by rw [he]
  rw [String.data_append, List.append_eq_nil] at hd
  exact String.ext hd.1

theorem Json.lookup_map_key (f : String → Json) (keys : List String) (k : String)
    (hk : k ∈ keys) :
    Json.lookup k (keys.map fun k' => (k', f k')) = some (f k) := by
  induction keys with
  | nil => cases hk
  | cons k0 rest ih =>
    by_cases h : k0 = k
    · subst h; simp [Json.lookup]
    · have hk' : k ∈ rest := by
        cases List.mem_cons.mp hk with
        | inl he => exact absurd he.symm h
        | inr hm => exact hm
      simp [Json.lookup, h, ih hk']

theorem Json.lookup_append_of_keys_ne (k : String) (kvs extra : List (String × Json))
    (h : ∀ p ∈ extra, p.1 ≠ k) :
    Json.lookup k (kvs ++ extra) = Json.lookup k kvs := by
  induction kvs with
  | nil =>
    simp only [List.nil_append, Json.lookup]
    induction extra with
    | nil => rfl
    | cons p rest ih =>
      have hp : p.1 ≠ k := h p (List.mem_cons_self _ _)
      obtain ⟨k', v'⟩ := p
      simp only [Json.lookup, if_neg hp]
      exact ih fun p hp' => h p (List.mem_cons_of_mem _ hp')
  | cons p rest ih =>
    obtain ⟨k', v'⟩ := p
    by_cases hk : k' = k
    · simp [Json.lookup, hk]
    · simp only [List.cons_append, Json.lookup, if_neg hk]
      exact ih

theorem cellVal_obj_append (kvs extra : List (String × Json)) (k : String)
    (h : ∀ p ∈ extra, p.1 ≠ k) :
    cellVal (Json.obj (kvs ++ extra)) k = cellVal (Json.obj kvs) k := by
  simp [cellVal, Json.lookup_append_of_keys_ne k kvs extra h]

theorem filterMap_eq_of_forall₂ {α β : Type} (f : α → Option β) (l l' : List α)
    (h : List.Forall₂ (fun a a' => f a' = f a) l l') :
    l'.filterMap f = l.filterMap f := by
  induction h with
  | nil => rfl
  | cons hab _ ih => simp [List.filterMap_cons, hab, ih]

/-- Shared classification lemma: for mapping rows, the `data_types`
entry the stage records for a first-row column `k` is exactly the
`isNumericCol` test. -/
theorem dataTypeOf_classification (q k : String) (fr : List (String × Json))
    (rest : List Json)
    (hrows : ∀ r ∈ (Json.obj fr :: rest), ∃ kvs, r = Json.obj kvs)
    (hk : k ∈ fr.map Prod.fst) :
    dataTypeOf (generate_chart_specifications (Json.obj fr :: rest) q) k =
      some (.str (if isNumericCol (Json.obj fr :: rest) k then "numeric"
        else "categorical")) := by
  have hok : (fr.map Prod.fst).all
      (fun k' => (Json.obj fr :: rest).all fun r => rowTestOk r k') = true := by
    simp only [List.all_eq_true]
    intro k' _ r hr
    obtain ⟨kvs, hkvs⟩ := hrows r hr
    subst hkvs
    rfl
  have hbody : dataTypeOf (chartSuccessBody (Json.obj fr :: rest) q fr) k =
      Json.lookup k ((fr.map Prod.fst).map fun k' =>
        (k', Json.str (if isNumericCol (Json.obj fr :: rest) k' then "numeric"
          else "categorical"))) := rfl
  simp only [generate_chart_specifications, hok, if_true, hbody]
  rw [Json.lookup_map_key
    (fun k' => Json.str (if isNumericCol (Json.obj fr :: rest) k' then "numeric"
      else "categorical")) _ _ hk]

theorem execErrorObj_get_status (m : String) :
    Json.get (execErrorObj m) "status" = some (.str "error") := rfl

theorem execErrorObj_get_row_count (m : String) :
    Json.get (execErrorObj m) "row_count" = some (.num 0 0) := rfl

theorem execErrorObj_get_error_message (m : String) :
    Json.get (execErrorObj m) "error_message" = some (.str m) := rfl

theorem execSuccessObj_get_status (rows : List Json) :
    Json.get (execSuccessObj rows) "status" = some (.str "success") := rfl

theorem execSuccessObj_get_error_message (rows : List Json) :
    Json.get (execSuccessObj rows) "error_message" = some .null := rfl

/-!
Claim theorems.
-/

theorem shape_error_message_iff (vr : ValidationResult) :
    Json.get (shapeExecResult vr) "error_message" ≠ some .null ↔
      Json.get (shapeExecResult vr) "status" = some (.str "error") := by
  obtain ⟨qr, em⟩ := vr
  cases qr with
  | some rows =>
    have h1 : shapeExecResult ⟨some rows, em⟩ = execSuccessObj rows := rfl
    rw [h1, execSuccessObj_get_error_message, execSuccessObj_get_status]
    constructor
    · intro h; exact absurd rfl h
    · intro h; exact absurd h (by decide)
  | none =>
    by_cases h : em.getD "" = ""
    · have h1 : shapeExecResult ⟨none, em⟩ = execSuccessObj [] := by
        simp [shapeExecResult, h]
      rw [h1, execSuccessObj_get_error_message, execSuccessObj_get_status]
      constructor
      · intro hx; exact absurd rfl hx
      · intro hx; exact absurd hx (by decide)
    · have h1 : shapeExecResult ⟨none, em⟩ = execErrorObj (em.getD "") := by
        simp [shapeExecResult, h]
      rw [h1, execErrorObj_get_error_message, execErrorObj_get_status]
      simp

/-- C9: a warehouse execution returning zero rows and no error shapes to
the explicit empty-but-not-failed record `{status: success, data: [],
row_count: 0, error_message: null}`; and in every record returned by
`validate_query_execution` the `error_message` field is non-null exactly
when `status = "error"`. -/
theorem C9_empty_success_shaping :
    (∀ vr : ValidationResult,
      (vr.query_result = some [] ∨ vr.query_result = none) →
      (vr.error_message = none ∨ vr.error_message = some "") →
      shapeExecResult vr = execSuccessObj []) ∧
    (∀ (sql : String) (wh : String → Except String ValidationResult),
      Json.get (validate_query_execution sql wh) "error_message" ≠ some .null ↔
        Json.get (validate_query_execution sql wh) "status" = some (.str "error")) := by
  constructor
  · rintro ⟨qr, em⟩ hqr hem
    rcases hqr with h | h <;> subst h <;> rcases hem with h2 | h2 <;> subst h2 <;> rfl
  · intro sql wh
    cases h : run_bigquery_validation sql wh with
    | ok vr =>
      have h1 : validate_query_execution sql wh = shapeExecResult vr := by
        simp [validate_query_execution, h]
      rw [h1]
      exact shape_error_message_iff vr
    | error e =>
      have h1 : validate_query_execution sql wh =
          execErrorObj ("BigQueryRunner error: " ++ e) := by
        simp [validate_query_execution, h]
      rw [h1, execErrorObj_get_error_message, execErrorObj_get_status]
      simp

/-- C9 witness. -/
theorem C9_witness :
    ((⟨some [], none⟩ : ValidationResult).query_result = some [] ∨
      (⟨some [], none⟩ : ValidationResult).query_result = none) ∧
    shapeExecResult ⟨some [], none⟩ = execSuccessObj [] ∧
    (Json.get (validate_query_execution "SELECT 1"
        (fun _ => .ok ⟨some [], none⟩)) "error_message" ≠ some .null ↔
      Json.get (validate_query_execution "SELECT 1"
        (fun _ => .ok ⟨some [], none⟩)) "status" = some (.str "error")) :=
  ⟨Or.inl rfl,
   C9_empty_success_shaping.1 ⟨some [], none⟩ (Or.inl rfl) (Or.inl rfl),
   C9_empty_success_shaping.2 "SELECT 1" (fun _ => .ok ⟨some [], none⟩)⟩

/-- C2 counterexample: an LLM response whose stripped text is not JSON
is returned verbatim by the Planning stage — the returned text is not a
JSON object at all, so it is no QueryPlan-shaped failure object and
carries no `status: failed` marker. -/
theorem C2_counterexample :
    generate_query_plan "any question" (.ok "this is not json \x7b oops") =
      "this is not json \x7b oops" ∧
    Json.parse "this is not json \x7b oops" = none := by
  exact ⟨by decide, by decide⟩

/-- C2 (amended): on a parse failure the Planning stage does not raise
and returns the stripped raw text unchanged (no failure object, no
`status: failed` marker — that object is produced only when the LLM call
itself raises); downstream, Execution short-circuits on the unparseable
text with the invalid-JSON error record instead of crashing. -/
theorem C2_amended (q t : String)
    (hfail : Json.parse (stripFences t) = none) :
    generate_query_plan q (.ok t) = stripFences t ∧
    ∀ (sqlLlm : Except String String)
      (wh : String → Except String ValidationResult) (st : DbSettings),
      execute_query_plan (generate_query_plan q (.ok t)) sqlLlm wh st =
        invalidJsonPlanObj := by
  refine ⟨rfl, ?_⟩
  intro sqlLlm wh st
  simp [execute_query_plan, generate_query_plan, hfail]

/-- C2 witness. -/
theorem C2_witness :
    Json.parse (stripFences "also not json \x7b oops") = none ∧
    (generate_query_plan "q" (.ok "also not json \x7b oops") =
      stripFences "also not json \x7b oops" ∧
    ∀ (sqlLlm : Except String String)
      (wh : String → Except String ValidationResult) (st : DbSettings),
      execute_query_plan (generate_query_plan "q" (.ok "also not json \x7b oops"))
        sqlLlm wh st = invalidJsonPlanObj) :=
  ⟨by decide, C2_amended "q" "also not json \x7b oops" (by decide)⟩

/-- C1 counterexample: with a truncated QueryPlan JSON the coordinator's
envelope has `success = true` and `pipeline_phases.query_execution.status
= "success"`, not the claimed `success = false` / `"unknown"`. -/
theorem C1_counterexample :
    (execute_full_pipeline "q" (.ok ⟨"p", "d", "s"⟩) (.ok "\x7b \"oops\": ")
        (.ok "SELECT 1") (fun _ => .ok ⟨some [], none⟩)).success = true ∧
    (execute_full_pipeline "q" (.ok ⟨"p", "d", "s"⟩) (.ok "\x7b \"oops\": ")
        (.ok "SELECT 1") (fun _ => .ok ⟨some [], none⟩)).query_execution_status =
      "success" := by
  exact ⟨by decide, by decide⟩

/-- C1 (amended): on a QueryPlan parse failure the coordinator does not
transition to ERROR: Execution is still invoked on the unparseable text
and yields the invalid-JSON error record, Charting is skipped, and the
envelope has `success = true`, `data` the execution error record (its
`data` field null), `query_execution.status = "success"` and
`chart_generation.status = "error"`. The claimed `success = false` /
`query_execution = "unknown"` / empty-data envelope is produced exactly
when the pipeline body raises, i.e. when settings loading fails. -/
theorem C1_amended :
    (∀ (q t : String) (sqlLlm : Except String String)
        (wh : String → Except String ValidationResult) (st : DbSettings),
      Json.parse (stripFences t) = none →
      execute_full_pipeline q (.ok st) (.ok t) sqlLlm wh =
        { success := true, data := invalidJsonPlanObj,
          chart_specifications := noChartDataObj,
          query_planning_status := "success",
          query_execution_status := "success",
          chart_generation_status := "error",
          query_plan_used := some true, row_count := some 0,
          error_message := none }) ∧
    (∀ (q e : String) (planLlm sqlLlm : Except String String)
        (wh : String → Except String ValidationResult),
      execute_full_pipeline q (.error e) planLlm sqlLlm wh =
        pipelineErrorEnvelope e) := by
  constructor
  · intro q t sqlLlm wh st hfail
    have hexec : execute_query_plan (generate_query_plan q (.ok t)) sqlLlm wh st =
        invalidJsonPlanObj := by
      simp [execute_query_plan, generate_query_plan, hfail]
    simp only [execute_full_pipeline, hexec]
    rfl
  · intro q e planLlm sqlLlm wh
    rfl

/-- C1 witness. -/
theorem C1_witness :
    Json.parse (stripFences "\x7b \"truncated\": ") = none ∧
    execute_full_pipeline "q" (.ok ⟨"p", "d", "s"⟩) (.ok "\x7b \"truncated\": ")
        (.ok "SELECT 1") (fun _ => .ok ⟨some [], none⟩) =
      { success := true, data := invalidJsonPlanObj,
        chart_specifications := noChartDataObj,
        query_planning_status := "success",
        query_execution_status := "success",
        chart_generation_status := "error",
        query_plan_used := some true, row_count := some 0,
        error_message := none } :=
  ⟨by decide, C1_amended.1 "q" "\x7b \"truncated\": " (.ok "SELECT 1")
    (fun _ => .ok ⟨some [], none⟩) ⟨"p", "d", "s"⟩ (by decide)⟩

/-- C4 (spec-modelled `run_bigquery_validation`): SQL containing a
destructive verb (case-insensitively) is rejected without consulting the
warehouse — the shaped result is independent of the warehouse oracle —
and the shaped record has `status = "error"`, `row_count = 0`, and an
`error_message` naming a detected blocked verb. -/
theorem C4_blocked_verb_rejection (sql : String)
    (wh wh' : String → Except String ValidationResult)
    (hb : containsBlockedVerb sql = true) :
    validate_query_execution sql wh = validate_query_execution sql wh' ∧
    Json.get (validate_query_execution sql wh) "status" = some (.str "error") ∧
    Json.get (validate_query_execution sql wh) "row_count" = some (.num 0 0) ∧
    ∃ v m, v ∈ blockedVerbs ∧ strContains (upperStr sql) v = true ∧
      Json.get (validate_query_execution sql wh) "error_message" = some (.str m) ∧
      strContains m v = true := by
  have hrun : ∀ w : String → Except String ValidationResult,
      run_bigquery_validation sql w =
        .ok ⟨none, some (blockedVerbMessage sql)⟩ := by
    intro w; simp [run_bigquery_validation, hb]
  have hmsg : blockedVerbMessage sql ≠ "" := by
    unfold blockedVerbMessage
    exact str_append_ne_empty_left _ _ (by decide)
  have hshape : shapeExecResult ⟨none, some (blockedVerbMessage sql)⟩ =
      execErrorObj (blockedVerbMessage sql) := by
    simp [shapeExecResult, Option.getD, hmsg]
  have hval : ∀ w : String → Except String ValidationResult,
      validate_query_execution sql w = execErrorObj (blockedVerbMessage sql) := by
    intro w; simp [validate_query_execution, hrun, hshape]
  refine ⟨by rw [hval wh, hval wh'], ?_, ?_, ?_⟩
  · rw [hval wh]; exact execErrorObj_get_status _
  · rw [hval wh]; exact execErrorObj_get_row_count _
  · have hex : ∃ v ∈ blockedVerbs, strContains (upperStr sql) v = true := by
      simpa [containsBlockedVerb, List.any_eq_true] using hb
    have hfil : blockedVerbs.filter (fun v => strContains (upperStr sql) v) ≠ [] := by
      obtain ⟨v, hv, hpv⟩ := hex
      exact List.ne_nil_of_mem (List.mem_filter.mpr ⟨hv, hpv⟩)
    obtain ⟨v0, t, hft⟩ : ∃ v0 t,
        blockedVerbs.filter (fun v => strContains (upperStr sql) v) = v0 :: t := by
      cases hc : blockedVerbs.filter (fun v => strContains (upperStr sql) v) with
      | nil => exact absurd hc hfil
      | cons a b => exact ⟨a, b, rfl⟩
    have hv0m : v0 ∈ blockedVerbs.filter (fun v => strContains (upperStr sql) v) := by
      rw [hft]; exact List.mem_cons_self _ _
    refine ⟨v0, blockedVerbMessage sql, (List.mem_filter.mp hv0m).1,
      (List.mem_filter.mp hv0m).2, ?_, ?_⟩
    · rw [hval wh]; exact execErrorObj_get_error_message _
    · unfold blockedVerbMessage
      rw [hft]
      simpa using strContains_append_right "Invalid SQL: contains disallowed operation " v0

/-- C4 witness (spec Scenario D input). -/
theorem C4_witness :
    containsBlockedVerb "DELETE FROM train" = true ∧
    (validate_query_execution "DELETE FROM train" (fun _ => .ok ⟨some [], none⟩) =
      validate_query_execution "DELETE FROM train" (fun _ => .error "unreachable") ∧
    Json.get (validate_query_execution "DELETE FROM train"
      (fun _ => .ok ⟨some [], none⟩)) "status" = some (.str "error") ∧
    Json.get (validate_query_execution "DELETE FROM train"
      (fun _ => .ok ⟨some [], none⟩)) "row_count" = some (.num 0 0) ∧
    ∃ v m, v ∈ blockedVerbs ∧ strContains (upperStr "DELETE FROM train") v = true ∧
      Json.get (validate_query_execution "DELETE FROM train"
        (fun _ => .ok ⟨some [], none⟩)) "error_message" = some (.str m) ∧
      strContains m v = true) :=
  ⟨by decide,
   C4_blocked_verb_rejection "DELETE FROM train" (fun _ => .ok ⟨some [], none⟩)
     (fun _ => .error "unreachable") (by decide)⟩

/-- C6 counterexample: on empty rows the Chart Recommendation stage does
return a failure envelope with empty recommendations, but its `error`
string is "No data provided for visualization", not the claimed literal
`"no data"`. -/
theorem C6_counterexample :
    Json.get (generate_chart_specifications [] "any question") "success" =
      some (.bool false) ∧
    Json.get (generate_chart_specifications [] "any question") "recommendations" =
      some (.arr []) ∧
    Json.get (generate_chart_specifications [] "any question") "error" =
      some (.str "No data provided for visualization") ∧
    "No data provided for visualization" ≠ "no data" := by
  refine ⟨rfl, rfl, rfl, by decide⟩

/-- C6 (amended): for the empty row sequence and any question string,
the Chart Recommendation stage returns, without throwing,
`{success: false, error: "No data provided for visualization",
recommendations: []}`. -/
theorem C6_amended (q : String) :
    generate_chart_specifications [] q =
      .obj [("success", .bool false),
            ("error", .str "No data provided for visualization"),
            ("recommendations", .arr [])] := rfl

/-- C5 counterexample: a single-column row sequence whose non-null
values are exactly 80% numeric (4 of 5) is classified `categorical`,
because the code requires strictly more than 80%
(`numeric_values / total_values > 0.8`), contradicting the claimed
"at least 80%" rule at the boundary. -/
theorem C5_counterexample :
    colTotal [Json.obj [("v", .num 1 0)], .obj [("v", .num 2 0)],
        .obj [("v", .num 3 0)], .obj [("v", .num 4 0)], .obj [("v", .str "x")]] "v" = 5 ∧
    colNumeric [Json.obj [("v", .num 1 0)], .obj [("v", .num 2 0)],
        .obj [("v", .num 3 0)], .obj [("v", .num 4 0)], .obj [("v", .str "x")]] "v" = 4 ∧
    dataTypeOf (generate_chart_specifications
        [Json.obj [("v", .num 1 0)], .obj [("v", .num 2 0)], .obj [("v", .num 3 0)],
         .obj [("v", .num 4 0)], .obj [("v", .str "x")]] "q") "v" =
      some (.str "categorical") := by
  refine ⟨by decide, by decide, by decide⟩

/-- C5 (amended): for every column key of the first row of a non-empty
sequence of mapping rows, the column is classified `numeric` iff it has
at least one non-null observed value and strictly more than 80% of the
non-null observed values parse as a number (`float` accepts them);
otherwise it is classified `categorical`. In particular a column at
exactly 80% is categorical. -/
theorem C5_amended (q k : String) (fr : List (String × Json)) (rest : List Json)
    (hrows : ∀ r ∈ (Json.obj fr :: rest), ∃ kvs, r = Json.obj kvs)
    (hk : k ∈ fr.map Prod.fst) :
    dataTypeOf (generate_chart_specifications (Json.obj fr :: rest) q) k =
      some (.str
        (if 0 < colTotal (Json.obj fr :: rest) k ∧
            4 * colTotal (Json.obj fr :: rest) k <
              5 * colNumeric (Json.obj fr :: rest) k
         then "numeric" else "categorical")) := by
  rw [dataTypeOf_classification q k fr rest hrows hk]
  simp [isNumericCol]

theorem except_ok_bind {ε α β : Type} (a : α) (f : α → Except ε β) :
    (Except.ok a : Except ε α) >>= f = f a := rfl

theorem except_pure {ε α : Type} (a : α) : (pure a : Except ε α) = Except.ok a := rfl

theorem except_error_bind {ε α β : Type} (e : ε) (f : α → Except ε β) :
    (Except.error e : Except ε α) >>= f = Except.error e := rfl

theorem pyIndex_non_obj (j : Json) (hj : ∀ kvs, j ≠ Json.obj kvs) (k : String) :
    pyIndex j k = .error () := by
  cases j with
  | obj kvs => exact absurd rfl (hj kvs)
  | null => rfl
  | bool b => rfl
  | num m e => rfl
  | str s => rfl
  | arr xs => rfl

theorem planElementsScan_non_obj (j : Json) (hj : ∀ kvs, j ≠ Json.obj kvs)
    (els : List String) :
    planElementsScan j els = .error () ∨ planElementsScan j els = .ok (0, els) := by
  induction els with
  | nil => exact Or.inr rfl
  | cons el rest ih =>
    cases hc : pyContains j el with
    | error e =>
      left
      simp [planElementsScan, hc, except_error_bind]
    | ok b =>
      cases b with
      | true =>
        left
        simp [planElementsScan, hc, except_ok_bind, pyIndex_non_obj j hj el,
          except_error_bind]
      | false =>
        rcases ih with h | h
        · left
          simp [planElementsScan, hc, except_ok_bind, h, except_error_bind]
        · right
          simp [planElementsScan, hc, except_ok_bind, except_pure, h]

theorem planElementsScan_obj (kvs : List (String × Json)) (els : List String) :
    planElementsScan (.obj kvs) els =
      .ok ((els.filter fun el => ((Json.lookup el kvs).getD .null).truthy).length,
           els.filter fun el => !((Json.lookup el kvs).getD .null).truthy) := by
  induction els with
  | nil => rfl
  | cons el rest ih =>
    cases hl : Json.lookup el kvs with
    | none =>
      simp [planElementsScan, pyContains, hl, except_ok_bind, except_pure, ih,
        List.filter_cons, Json.truthy]
    | some v =>
      cases htv : v.truthy with
      | true =>
        simp [planElementsScan, pyContains, pyIndex, hl, except_ok_bind, except_pure, ih,
          List.filter_cons, htv]
      | false =>
        simp [planElementsScan, pyContains, pyIndex, hl, except_ok_bind, except_pure, ih,
          List.filter_cons, htv]

theorem validateJsonErrorObj_get_is_valid :
    Json.get validateJsonErrorObj "is_valid" = some (.bool false) := rfl

theorem validateExceptionObj_get_is_valid :
    Json.get validateExceptionObj "is_valid" = some (.bool false) := rfl

theorem validatePlanBody_non_obj (j : Json) (hj : ∀ kvs, j ≠ Json.obj kvs) :
    Json.get (match validatePlanBody j with
      | .ok r => r
      | .error _ => validateExceptionObj) "is_valid" = some (.bool false) := by
  rcases planElementsScan_non_obj j hj requiredElements with hs | hs
  · simp [validatePlanBody, hs, except_error_bind,
      validateExceptionObj_get_is_valid]
  · cases hc : pyContains j "required_tables" with
    | error e =>
      simp [validatePlanBody, hs, except_ok_bind, hc, except_error_bind,
        validateExceptionObj_get_is_valid]
    | ok b =>
      cases b with
      | true =>
        simp [validatePlanBody, hs, except_ok_bind, hc,
          pyIndex_non_obj j hj "required_tables", except_error_bind,
          validateExceptionObj_get_is_valid]
      | false =>
        simp [validatePlanBody, hs, except_ok_bind, except_pure, hc]
        rfl

/-- The `is_valid` verdict on a parsed plan object: true exactly when
the five checked elements are present and truthy and the
`len(required_tables)` probe does not raise. -/
theorem validate_obj_is_valid (p : String) (kvs : List (String × Json))
    (hparse : Json.parse p = some (.obj kvs)) :
    (Json.get (validate_query_plan p) "is_valid" = some (.bool true) ↔
      (∀ el ∈ requiredElements, ((Json.lookup el kvs).getD .null).truthy = true) ∧
      (∀ rt, Json.lookup "required_tables" kvs = some rt →
        (pyLen? rt).isSome = true)) := by
  have hmiss : ∀ sc rc,
      Json.get (Json.obj [("is_valid", .bool
          ((requiredElements.filter fun el =>
            !((Json.lookup el kvs).getD .null).truthy).isEmpty)),
        ("completeness_score", .num sc 0),
        ("missing_elements", .arr ((requiredElements.filter fun el =>
            !((Json.lookup el kvs).getD .null).truthy).map Json.str)),
        ("recommendations", .arr rc)]) "is_valid" = some (.bool true) ↔
      ∀ el ∈ requiredElements, ((Json.lookup el kvs).getD .null).truthy = true := by
    intro sc rc
    have hg : Json.get (Json.obj [("is_valid", .bool
          ((requiredElements.filter fun el =>
            !((Json.lookup el kvs).getD .null).truthy).isEmpty)),
        ("completeness_score", .num sc 0),
        ("missing_elements", .arr ((requiredElements.filter fun el =>
            !((Json.lookup el kvs).getD .null).truthy).map Json.str)),
        ("recommendations", .arr rc)]) "is_valid" =
        some (.bool ((requiredElements.filter fun el =>
          !((Json.lookup el kvs).getD .null).truthy).isEmpty)) := rfl
    rw [hg]
    simp [List.isEmpty_iff, List.filter_eq_nil_iff]
  simp only [validate_query_plan, hparse]
  cases hlrt : Json.lookup "required_tables" kvs with
  | none =>
    have hbody : validatePlanBody (.obj kvs) =
        .ok (Json.obj [("is_valid", .bool
            ((requiredElements.filter fun el =>
              !((Json.lookup el kvs).getD .null).truthy).isEmpty)),
          ("completeness_score", .num ((requiredElements.filter fun el =>
              ((Json.lookup el kvs).getD .null).truthy).length * 20) 0),
          ("missing_elements", .arr ((requiredElements.filter fun el =>
              !((Json.lookup el kvs).getD .null).truthy).map Json.str)),
          ("recommendations", .arr (if (requiredElements.filter fun el =>
              ((Json.lookup el kvs).getD .null).truthy).length * 20 < 80 then
            [.str "Query plan needs more detail in missing elements"] else []))]) := by
      simp [validatePlanBody, planElementsScan_obj, except_ok_bind, except_pure, pyContains,
        hlrt]
    simp only [hbody]
    rw [hmiss]
    constructor
    · intro h
      exact ⟨h, fun rt hrt => nomatch hrt⟩
    · intro h
      exact h.1
  | some rt =>
    cases hpl : pyLen? rt with
    | none =>
      have hbody : validatePlanBody (.obj kvs) = .error () := by
        simp [validatePlanBody, planElementsScan_obj, except_ok_bind, pyContains,
          pyIndex, hlrt, hpl, except_error_bind]
      simp only [hbody]
      rw [validateExceptionObj_get_is_valid]
      constructor
      · intro h; exact absurd h (by simp)
      · rintro ⟨h1, h2⟩
        have := h2 rt rfl
        rw [hpl] at this
        exact absurd this (by simp)
    | some n =>
      have hbody : validatePlanBody (.obj kvs) =
          .ok (Json.obj [("is_valid", .bool
              ((requiredElements.filter fun el =>
                !((Json.lookup el kvs).getD .null).truthy).isEmpty)),
            ("completeness_score", .num ((requiredElements.filter fun el =>
                ((Json.lookup el kvs).getD .null).truthy).length * 20) 0),
            ("missing_elements", .arr ((requiredElements.filter fun el =>
                !((Json.lookup el kvs).getD .null).truthy).map Json.str)),
            ("recommendations", .arr ((if (requiredElements.filter fun el =>
                ((Json.lookup el kvs).getD .null).truthy).length * 20 < 80 then
              [.str "Query plan needs more detail in missing elements"] else []) ++
              (if 3 < n then [Json.str ("Complex query with " ++ toString n ++
                " tables - consider optimization")] else [])))]) := by
        simp [validatePlanBody, planElementsScan_obj, except_ok_bind, except_pure, pyContains,
          pyIndex, hlrt, hpl]
      simp only [hbody]
      rw [hmiss]
      constructor
      · intro h
        refine ⟨h, fun rt' hrt' => ?_⟩
        cases hrt'
        rw [hpl]
        rfl
      · intro h
        exact h.1

/-- Evaluation of `execute_query_plan` on a well-typed parsed plan with
a successful SQL LLM call, no blocked verb and a warehouse answering
`rows`: the enhanced result is the shaped success record with the plan
metadata appended. -/
theorem execute_query_plan_success (p : String) (kvs : List (String × Json))
    (sqlTxt : String) (st : DbSettings)
    (wh : String → Except String ValidationResult) (rows : List Json)
    (hparse : Json.parse p = some (.obj kvs))
    (hqa : pySliceable ((Json.lookup "question_analysis" kvs).getD (.str "")) = true)
    (hdps : (pyLen? ((Json.lookup "data_processing_steps" kvs).getD (.arr []))).isSome
      = true)
    (hsql : containsBlockedVerb (stripSqlFences sqlTxt) = false)
    (hwh : ∀ s, wh s = .ok ⟨some rows, none⟩) :
    execute_query_plan p (.ok sqlTxt) wh st =
      .obj [("status", .str "success"), ("execution_successful", .bool true),
            ("data", .arr rows), ("row_count", .num rows.length 0),
            ("error_message", .null),
            ("query_plan_used", .bool true),
            ("original_question",
              (Json.lookup "question_analysis" kvs).getD (.str "")),
            ("tables_accessed",
              (Json.lookup "required_tables" kvs).getD (.arr [])),
            ("generated_sql", .str (stripSqlFences sqlTxt))] := by
  have hval : validate_query_execution (stripSqlFences sqlTxt) wh =
      execSuccessObj rows := by
    simp [validate_query_execution, run_bigquery_validation, hsql, hwh,
      shapeExecResult]
  simp [execute_query_plan, hparse, execPlanBody, except_ok_bind, hqa, hdps,
    convert_plan_to_sql, hval, execSuccessObj]

set_option maxRecDepth 8192 in
/-- C7 counterexample: when Execution succeeds with `row_count = 0` the
coordinator does skip Charting and the envelope keeps `success = true`,
but the recorded chart-stage status is `"error"`, not the claimed
`"skipped"`. -/
theorem C7_counterexample :
    Json.get c7run.data "status" = some (.str "success") ∧
    Json.get c7run.data "row_count" = some (.num 0 0) ∧
    c7run.success = true ∧
    c7run.chart_specifications = noChartDataObj ∧
    c7run.chart_generation_status = "error" ∧
    "error" ≠ "skipped" := by
  exact ⟨by decide, by decide, by decide, by decide, by decide, by decide⟩

/-- C7 (amended): for every run whose Execution succeeds with zero rows,
the coordinator skips the Charting stage (emitting the fixed no-data
chart envelope), still returns `success = true` and `row_count = 0`, but
records the chart-stage status as `"error"`, not `"skipped"`. -/
theorem C7_amended (q t : String) (kvs : List (String × Json)) (sqlTxt : String)
    (st : DbSettings) (wh : String → Except String ValidationResult)
    (hparse : Json.parse (stripFences t) = some (.obj kvs))
    (hqa : pySliceable ((Json.lookup "question_analysis" kvs).getD (.str "")) = true)
    (hdps : (pyLen? ((Json.lookup "data_processing_steps" kvs).getD (.arr []))).isSome
      = true)
    (hsql : containsBlockedVerb (stripSqlFences sqlTxt) = false)
    (hwh : ∀ s, wh s = .ok ⟨some [], none⟩) :
    (execute_full_pipeline q (.ok st) (.ok t) (.ok sqlTxt) wh).success = true ∧
    (execute_full_pipeline q (.ok st) (.ok t) (.ok sqlTxt) wh).chart_specifications =
      noChartDataObj ∧
    (execute_full_pipeline q (.ok st) (.ok t) (.ok sqlTxt) wh).chart_generation_status
      = "error" ∧
    (execute_full_pipeline q (.ok st) (.ok t) (.ok sqlTxt) wh).row_count = some 0 := by
  have hexec := execute_query_plan_success (stripFences t) kvs sqlTxt st wh []
    hparse hqa hdps hsql hwh
  have hplan : generate_query_plan q (.ok t) = stripFences t := rfl
  simp only [execute_full_pipeline, hplan, hexec]
  refine ⟨?_, ?_, ?_, ?_⟩ <;> trivial

set_option maxRecDepth 8192 in
/-- C7 witness. -/
theorem C7_witness :
    Json.parse (stripFences c7planText) =
      some (.obj [("question_analysis", .str "qa"),
                  ("required_tables", .arr [.str "t"]),
                  ("table_relationships", .str "rel"),
                  ("preparation_steps", .arr [.str "s"]),
                  ("data_processing_steps", .arr [.str "d"]),
                  ("output_requirements", .str "o")]) ∧
    (c7run.success = true ∧
    c7run.chart_specifications = noChartDataObj ∧
    c7run.chart_generation_status = "error" ∧
    c7run.row_count = some 0) :=
  ⟨by decide,
   C7_amended "q" c7planText
     [("question_analysis", .str "qa"), ("required_tables", .arr [.str "t"]),
      ("table_relationships", .str "rel"), ("preparation_steps", .arr [.str "s"]),
      ("data_processing_steps", .arr [.str "d"]), ("output_requirements", .str "o")]
     "SELECT 1" ⟨"p", "d", "s"⟩ (fun _ => .ok ⟨some [], none⟩)
     (by decide) (by decide) (by decide) (by decide) (fun _ => rfl)⟩

theorem validate_non_obj_is_valid (p : String) (j : Json)
    (hparse : Json.parse p = some j) (hj : ∀ kvs, j ≠ Json.obj kvs) :
    Json.get (validate_query_plan p) "is_valid" = some (.bool false) := by
  have hv : validate_query_plan p =
      (match validatePlanBody j with
        | .ok r => r
        | .error _ => validateExceptionObj) := by
    simp [validate_query_plan, hparse]
  rw [hv]
  exact validatePlanBody_non_obj j hj

set_option maxRecDepth 8192 in
/-- C3 counterexample: a well-formed plan with `table_relationships`
absent is not treated as a failure anywhere: `validate_query_plan`
reports `is_valid: true`, and `execute_query_plan` still dispatches to
the warehouse and returns its rows with `status: "success"` instead of
failing closed. -/
theorem C3_counterexample :
    (Json.parse c3planText).bind (fun j => Json.get j "table_relationships") =
      none ∧
    Json.get (validate_query_plan c3planText) "is_valid" = some (.bool true) ∧
    Json.get (execute_query_plan c3planText (.ok "SELECT 1")
      (fun _ => .ok ⟨some [.obj [("r", .num 1 0)]], none⟩) ⟨"p", "d", "s"⟩)
      "status" = some (.str "success") ∧
    Json.get (execute_query_plan c3planText (.ok "SELECT 1")
      (fun _ => .ok ⟨some [.obj [("r", .num 1 0)]], none⟩) ⟨"p", "d", "s"⟩)
      "row_count" = some (.num 1 0) := by
  exact ⟨by decide, by decide, by decide, by decide⟩

/-- C3 (amended): the pipeline does not fail closed on missing or empty
required keys. The standalone `validate_query_plan` tool (which
`execute_full_pipeline` never invokes) reports `is_valid: true` exactly
when the plan parses to an object whose five checked keys
(`question_analysis`, `required_tables`, `preparation_steps`,
`data_processing_steps`, `output_requirements` — `table_relationships`
is not checked) are present and non-empty and the
`len(required_tables)` probe does not raise; and `execute_query_plan`
substitutes defaults for missing keys and still passes the plan
downstream — even when one of the six spec-required keys is absent or
empty, its result status is the warehouse's success, not a failure. -/
theorem C3_amended :
    (∀ p : String,
      Json.get (validate_query_plan p) "is_valid" = some (.bool true) ↔
        ∃ kvs, Json.parse p = some (.obj kvs) ∧
          (∀ el ∈ requiredElements,
            ((Json.lookup el kvs).getD .null).truthy = true) ∧
          (∀ rt, Json.lookup "required_tables" kvs = some rt →
            (pyLen? rt).isSome = true)) ∧
    (∀ (p : String) (kvs : List (String × Json)) (sqlTxt : String)
        (st : DbSettings) (wh : String → Except String ValidationResult)
        (rows : List Json),
      Json.parse p = some (.obj kvs) →
      pySliceable ((Json.lookup "question_analysis" kvs).getD (.str "")) = true →
      (pyLen? ((Json.lookup "data_processing_steps" kvs).getD (.arr []))).isSome
        = true →
      containsBlockedVerb (stripSqlFences sqlTxt) = false →
      (∀ s, wh s = .ok ⟨some rows, none⟩) →
      ¬(∀ el ∈ requiredSixKeys, ((Json.lookup el kvs).getD .null).truthy = true) →
      Json.get (execute_query_plan p (.ok sqlTxt) wh st) "status" =
        some (.str "success") ∧
      Json.get (execute_query_plan p (.ok sqlTxt) wh st) "row_count" =
        some (.num rows.length 0)) := by
  constructor
  · intro p
    cases hp : Json.parse p with
    | none =>
      have hv : validate_query_plan p = validateJsonErrorObj := by
        simp [validate_query_plan, hp]
      rw [hv, validateJsonErrorObj_get_is_valid]
      constructor
      · intro h; exact absurd h (by decide)
      · rintro ⟨kvs', hk', -, -⟩
        cases hk'
    | some j =>
      by_cases hobj : ∃ kvs, j = Json.obj kvs
      · obtain ⟨kvs, rfl⟩ := hobj
        rw [validate_obj_is_valid p kvs hp]
        constructor
        · intro h; exact ⟨kvs, rfl, h.1, h.2⟩
        · rintro ⟨kvs', hk', h1, h2⟩
          cases hk'
          exact ⟨h1, h2⟩
      · have hj : ∀ kvs, j ≠ Json.obj kvs := fun kvs h => hobj ⟨kvs, h⟩
        rw [validate_non_obj_is_valid p j hp hj]
        constructor
        · intro h; exact absurd h (by decide)
        · rintro ⟨kvs', hk', -, -⟩
          injection hk' with h'
          exact absurd h' (hj kvs')
  · intro p kvs sqlTxt st wh rows hparse hqa hdps hsql hwh _hmiss
    rw [execute_query_plan_success p kvs sqlTxt st wh rows hparse hqa hdps hsql hwh]
    exact ⟨rfl, rfl⟩

set_option maxRecDepth 8192 in
/-- C3 witness. -/
theorem C3_witness :
    (Json.get (validate_query_plan c3planText) "is_valid" = some (.bool true) ↔
      ∃ kvs, Json.parse c3planText = some (.obj kvs) ∧
        (∀ el ∈ requiredElements,
          ((Json.lookup el kvs).getD .null).truthy = true) ∧
        (∀ rt, Json.lookup "required_tables" kvs = some rt →
          (pyLen? rt).isSome = true)) ∧
    (Json.get (execute_query_plan c3planText (.ok "SELECT 1")
        (fun _ => .ok ⟨some [.obj [("r", .num 2 0)]], none⟩) ⟨"p", "d", "s"⟩)
        "status" = some (.str "success") ∧
      Json.get (execute_query_plan c3planText (.ok "SELECT 1")
        (fun _ => .ok ⟨some [.obj [("r", .num 2 0)]], none⟩) ⟨"p", "d", "s"⟩)
        "row_count" = some (.num [Json.obj [("r", .num 2 0)]].length 0)) :=
  ⟨C3_amended.1 c3planText,
   C3_amended.2 c3planText
     [("question_analysis", .str "qa"), ("required_tables", .arr [.str "t"]),
      ("preparation_steps", .arr [.str "s"]),
      ("data_processing_steps", .arr [.str "d"]),
      ("output_requirements", .str "o")]
     "SELECT 1" ⟨"p", "d", "s"⟩
     (fun _ => .ok ⟨some [.obj [("r", .num 2 0)]], none⟩)
     [.obj [("r", .num 2 0)]]
     (by decide) (by decide) (by decide) (by decide) (fun _ => rfl) (by decide)⟩

theorem extendsRow_right_obj (keys : List String) (rest rest' : List Json)
    (hrel : List.Forall₂ (extendsRow keys) rest rest') :
    ∀ r' ∈ rest', ∃ kvs, r' = Json.obj kvs := by
  induction hrel with
  | nil => intro r hr; cases hr
  | cons hab _ ih =>
    intro r' hr'
    rcases List.mem_cons.mp hr' with h | h
    · obtain ⟨kvs, extra, _, hr'eq, _⟩ := hab
      exact ⟨kvs ++ extra, h ▸ hr'eq⟩
    · exact ih r' h

theorem extendsRow_cellVal (keys : List String) (k : String) (hk : k ∈ keys)
    (rest rest' : List Json)
    (hrel : List.Forall₂ (extendsRow keys) rest rest') :
    List.Forall₂ (fun r r' => cellVal r' k = cellVal r k) rest rest' := by
  refine hrel.imp ?_
  rintro r r' ⟨kvs, extra, hre, hr'e, hdisj⟩
  subst hre; subst hr'e
  exact cellVal_obj_append kvs extra k fun p hp hpk => hdisj p hp (hpk ▸ hk)

/-- C10 (implicit): (1) the stage derives the column set it classifies
solely from the keys of the first row — `data_types` carries exactly
those keys, so keys appearing only in later rows receive no
classification; (2) adding fields over unknown keys to later rows
changes nothing in the entire result, so such keys influence no
shape-based or time-keyword recommendation; (3) a first-row column whose
observed values are all null or absent is classified categorical. -/
theorem C10_first_row_keys (q : String) (fr : List (String × Json))
    (rest rest' : List Json)
    (hrows : ∀ r ∈ rest, ∃ kvs, r = Json.obj kvs)
    (hrel : List.Forall₂ (extendsRow (fr.map Prod.fst)) rest rest') :
    (∃ da dts, Json.get (generate_chart_specifications (Json.obj fr :: rest) q)
        "data_analysis" = some (.obj da) ∧
      Json.lookup "data_types" da = some (.obj dts) ∧
      dts.map Prod.fst = fr.map Prod.fst) ∧
    generate_chart_specifications (Json.obj fr :: rest') q =
      generate_chart_specifications (Json.obj fr :: rest) q ∧
    ∀ k ∈ fr.map Prod.fst,
      (∀ r ∈ (Json.obj fr :: rest), cellVal r k = none) →
      dataTypeOf (generate_chart_specifications (Json.obj fr :: rest) q) k =
        some (.str "categorical") := by
  have hrows1 : ∀ r ∈ (Json.obj fr :: rest), ∃ kvs, r = Json.obj kvs := by
    intro r hr
    rcases List.mem_cons.mp hr with h | h
    · exact ⟨fr, h⟩
    · exact hrows r h
  have hok : (fr.map Prod.fst).all
      (fun k' => (Json.obj fr :: rest).all fun r => rowTestOk r k') = true := by
    simp only [List.all_eq_true]
    intro k' _ r hr
    obtain ⟨kvs, hkvs⟩ := hrows1 r hr
    subst hkvs; rfl
  have hrows' : ∀ r' ∈ rest', ∃ kvs, r' = Json.obj kvs :=
    extendsRow_right_obj _ rest rest' hrel
  have hok' : (fr.map Prod.fst).all
      (fun k' => (Json.obj fr :: rest').all fun r => rowTestOk r k') = true := by
    simp only [List.all_eq_true]
    intro k' _ r hr
    rcases List.mem_cons.mp hr with h | h
    · subst h; rfl
    · obtain ⟨kvs, hkvs⟩ := hrows' r h
      subst hkvs; rfl
  have hcell : ∀ k ∈ fr.map Prod.fst,
      (Json.obj fr :: rest').filterMap (fun r => cellVal r k) =
        (Json.obj fr :: rest).filterMap (fun r => cellVal r k) := by
    intro k hk
    have htail := filterMap_eq_of_forall₂ (fun r => cellVal r k) rest rest'
      (extendsRow_cellVal _ k hk rest rest' hrel)
    cases hc : cellVal (Json.obj fr) k <;>
      simp [List.filterMap_cons, hc, htail]
  have hnumcol : ∀ k ∈ fr.map Prod.fst,
      isNumericCol (Json.obj fr :: rest') k = isNumericCol (Json.obj fr :: rest) k := by
    intro k hk
    unfold isNumericCol colTotal colNumeric
    rw [hcell k hk]
  refine ⟨?_, ?_, ?_⟩
  · simp only [generate_chart_specifications, hok, if_true]
    refine ⟨_, _, rfl, rfl, ?_⟩
    simp [List.map_map, Function.comp]
  · have h1 : ((fr.map Prod.fst).map fun k =>
        (k, Json.str (if isNumericCol (Json.obj fr :: rest') k then "numeric"
          else "categorical"))) =
        ((fr.map Prod.fst).map fun k =>
          (k, Json.str (if isNumericCol (Json.obj fr :: rest) k then "numeric"
            else "categorical"))) :=
      List.map_congr_left fun k hk => by rw [hnumcol k hk]
    have h2 : chartNumericCols (Json.obj fr :: rest') (fr.map Prod.fst) =
        chartNumericCols (Json.obj fr :: rest) (fr.map Prod.fst) := by
      unfold chartNumericCols
      exact List.filter_congr fun k hk => by rw [hnumcol k hk]
    have h3 : chartCategoricalCols (Json.obj fr :: rest') (fr.map Prod.fst) =
        chartCategoricalCols (Json.obj fr :: rest) (fr.map Prod.fst) := by
      unfold chartCategoricalCols
      exact List.filter_congr fun k hk => by rw [hnumcol k hk]
    have hlen2 : (Json.obj fr :: rest').length = (Json.obj fr :: rest).length := by
      simp [hrel.length_eq.symm]
    have h5 : ∀ nc cc, chartShapeRecs (Json.obj fr :: rest') (fr.map Prod.fst) nc cc =
        chartShapeRecs (Json.obj fr :: rest) (fr.map Prod.fst) nc cc := by
      intro nc cc
      unfold chartShapeRecs
      rw [hlen2]
    simp only [generate_chart_specifications, hok, hok', if_true, chartSuccessBody,
      h1, h2, h3, h5, hlen2]
  · intro k hk hnull
    rw [dataTypeOf_classification q k fr rest hrows1 hk]
    have h0 : colTotal (Json.obj fr :: rest) k = 0 := by
      unfold colTotal
      rw [List.filterMap_eq_nil_iff.mpr hnull]
      rfl
    have hfalse : isNumericCol (Json.obj fr :: rest) k = false := by
      unfold isNumericCol
      rw [h0]
      simp
    rw [hfalse]
    simp

/-- C10 witness. -/
theorem C10_witness :
    (∀ r ∈ ([Json.obj [("a", .num 1 0)]] : List Json), ∃ kvs, r = Json.obj kvs) ∧
    ((∃ da dts, Json.get (generate_chart_specifications
        [Json.obj [("a", .str "x")], Json.obj [("a", .num 1 0)]] "q")
          "data_analysis" = some (.obj da) ∧
      Json.lookup "data_types" da = some (.obj dts) ∧
      dts.map Prod.fst = [("a", Json.str "x")].map Prod.fst) ∧
    generate_chart_specifications
        [Json.obj [("a", .str "x")], Json.obj ([("a", .num 1 0)] ++ [("zz", .num 9 0)])] "q" =
      generate_chart_specifications
        [Json.obj [("a", .str "x")], Json.obj [("a", .num 1 0)]] "q" ∧
    ∀ k ∈ [("a", Json.str "x")].map Prod.fst,
      (∀ r ∈ ([Json.obj [("a", .str "x")], Json.obj [("a", .num 1 0)]] : List Json),
        cellVal r k = none) →
      dataTypeOf (generate_chart_specifications
        [Json.obj [("a", .str "x")], Json.obj [("a", .num 1 0)]] "q") k =
        some (.str "categorical")) := by
  refine ⟨?_, C10_first_row_keys "q" [("a", .str "x")] [Json.obj [("a", .num 1 0)]]
    [Json.obj ([("a", .num 1 0)] ++ [("zz", .num 9 0)])] ?_
    (List.Forall₂.cons ⟨[("a", .num 1 0)], [("zz", .num 9 0)], rfl, rfl, by decide⟩
      List.Forall₂.nil)⟩ <;>
  · intro r hr
    simp only [List.mem_singleton] at hr
    exact ⟨_, hr⟩

/-- C8: for every non-empty sequence of mapping rows whose first row has
exactly two columns, one classified categorical and one numeric, the
recommendation list contains the bar chart (`barRecObj`: priority 1,
x-axis the categorical column, y-axis the numeric column) and the pie
chart (`pieRecObj`: priority 2, label field the categorical column,
value field the numeric column). -/
theorem C8_two_column_bar_pie (q c n : String) (fr : List (String × Json))
    (rest : List Json)
    (hrows : ∀ r ∈ (Json.obj fr :: rest), ∃ kvs, r = Json.obj kvs)
    (hlen : (fr.map Prod.fst).length = 2)
    (hcat : (fr.map Prod.fst).filter
      (fun k => !(isNumericCol (Json.obj fr :: rest) k)) = [c])
    (hnum : (fr.map Prod.fst).filter (isNumericCol (Json.obj fr :: rest)) = [n]) :
    ∃ recs, Json.get (generate_chart_specifications (Json.obj fr :: rest) q)
        "chart_recommendations" = some (.arr recs) ∧
      barRecObj c n ∈ recs ∧ pieRecObj c n ∈ recs := by
  have hok : (fr.map Prod.fst).all
      (fun k' => (Json.obj fr :: rest).all fun r => rowTestOk r k') = true := by
    simp only [List.all_eq_true]
    intro k' _ r hr
    obtain ⟨kvs, hkvs⟩ := hrows r hr
    subst hkvs
    rfl
  have hget : Json.get (chartSuccessBody (Json.obj fr :: rest) q fr)
      "chart_recommendations" =
      some (.arr (chartShapeRecs (Json.obj fr :: rest) (fr.map Prod.fst)
          (chartNumericCols (Json.obj fr :: rest) (fr.map Prod.fst))
          (chartCategoricalCols (Json.obj fr :: rest) (fr.map Prod.fst)) ++
        chartTimeRecs (fr.map Prod.fst)
          (chartNumericCols (Json.obj fr :: rest) (fr.map Prod.fst)))) := rfl
  have hshape : chartShapeRecs (Json.obj fr :: rest) (fr.map Prod.fst)
      (chartNumericCols (Json.obj fr :: rest) (fr.map Prod.fst))
      (chartCategoricalCols (Json.obj fr :: rest) (fr.map Prod.fst)) =
      [barRecObj c n, pieRecObj c n] := by
    unfold chartShapeRecs chartNumericCols chartCategoricalCols
    rw [hcat, hnum, hlen]
    simp
  simp only [generate_chart_specifications, hok, if_true]
  refine ⟨_, hget, ?_, ?_⟩ <;> rw [hshape] <;> simp

/-- C8 witness (spec Scenario A input). -/
theorem C8_witness :
    (([("country", Json.str "US"), ("sales", Json.num 100 0)].map Prod.fst).length
      = 2) ∧
    ∃ recs, Json.get (generate_chart_specifications
        [Json.obj [("country", .str "US"), ("sales", .num 100 0)],
         Json.obj [("country", .str "UK"), ("sales", .num 80 0)]]
        "show me sales by country") "chart_recommendations" = some (.arr recs) ∧
      barRecObj "country" "sales" ∈ recs ∧ pieRecObj "country" "sales" ∈ recs := by
  refine ⟨by decide, C8_two_column_bar_pie "show me sales by country" "country"
    "sales" [("country", .str "US"), ("sales", .num 100 0)]
    [Json.obj [("country", .str "UK"), ("sales", .num 80 0)]] ?_
    (by decide) (by decide) (by decide)⟩
  intro r hr
  simp only [List.mem_cons, List.mem_singleton] at hr
  rcases hr with h | h | h
  · exact ⟨_, h⟩
  · exact ⟨_, h⟩
  · cases h

/-- C5 witness. -/
theorem C5_witness :
    (∀ r ∈ ([Json.obj [("v", .num 1 0)], .obj [("v", .str "x")]] : List Json),
      ∃ kvs, r = Json.obj kvs) ∧
    "v" ∈ ([("v", Json.num 1 0)] : List (String × Json)).map Prod.fst ∧
    dataTypeOf (generate_chart_specifications
        [Json.obj [("v", .num 1 0)], .obj [("v", .str "x")]] "q") "v" =
      some (.str
        (if 0 < colTotal [Json.obj [("v", .num 1 0)], .obj [("v", .str "x")]] "v" ∧
            4 * colTotal [Json.obj [("v", .num 1 0)], .obj [("v", .str "x")]] "v" <
              5 * colNumeric [Json.obj [("v", .num 1 0)], .obj [("v", .str "x")]] "v"
         then "numeric" else "categorical")) := by
  refine ⟨?_, by decide, C5_amended "q" "v" [("v", Json.num 1 0)]
    [.obj [("v", .str "x")]] ?_ (by decide)⟩ <;>
  · intro r hr
    simp only [List.mem_cons, List.mem_singleton] at hr
    rcases hr with h | h | h
    · exact ⟨_, h⟩
    · exact ⟨_, h⟩
    · cases h
